import Mathlib

/-!
Verification development for the flash-loan transaction assembler of this
repository.  The embedding below is a shallow model of the TypeScript
source: the two builder documents found in the repository (both exporting
buildSimulatedFlashLoanInstructions; the second one is modelled here with a
V2 suffix), the Jupiter quote client, the WSOL amount estimator, the swap
instruction adapter and the lending-protocol instruction constructors from
the Solend SDK that the source calls.

Modelling conventions:
- Ledger public keys are natural numbers; the fixed protocol addresses are
  distinct constants and the associated-token address is a deterministic
  pairing of (mint, owner), mirroring the deterministic PDA derivation.
- Instruction payloads are byte lists (List Nat), as the source inspects
  raw payload bytes (ix.data[0]) to recognise instruction kinds.
- Numeric amounts travel as rationals: the source passes amounts as decimal
  strings and converts with parseFloat / BN / BigInt; the floor conversion
  points of the source are modelled with Int.floor.
- Network effects (Jupiter HTTP responses, the decoded swap transaction,
  the latest blockhash, and the outcome of the web3 compile step) are
  supplied by an explicit environment record, so every function is a pure
  function of its inputs and the environment.
-/

/-- Ledger public keys, modelled as natural numbers. -/
abbrev PubKey := Nat

/-- SPL token program id (TOKEN_PROGRAM_ID in the source). -/
def TOKEN_PROGRAM_ID : PubKey := 0

/-- Compute budget program id (ComputeBudgetProgram.programId). -/
def COMPUTE_BUDGET_PROGRAM_ID : PubKey := 1

/-- System program id (SystemProgram.programId). -/
def SYSTEM_PROGRAM_ID : PubKey := 2

/-- Associated token account program id. -/
def ASSOCIATED_TOKEN_PROGRAM_ID : PubKey := 3

/-- Solend lending program id (LENDING_PROGRAM_ID from const.ts). -/
def LENDING_PROGRAM_ID : PubKey := 4

/-- Wrapped SOL mint (WSOL_MINT_KEY from const.ts). -/
def WSOL_MINT_KEY : PubKey := 5

/-- NATIVE_MINT of spl-token is the wrapped SOL mint. -/
def NATIVE_MINT : PubKey := WSOL_MINT_KEY

/-- Solend SOL reserve address (RESERVE_ADDRESS from const.ts). -/
def RESERVE_ADDRESS : PubKey := 6

/-- Solend lending market address (LENDING_MARKET from const.ts). -/
def LENDING_MARKET : PubKey := 7

/-- Reserve liquidity supply account (SUPPLYPUBKEY from const.ts). -/
def SUPPLYPUBKEY : PubKey := 8

/-- Reserve fee receiver (FEE_RECEIVER_ADDRESS from const.ts). -/
def FEE_RECEIVER_ADDRESS : PubKey := 9

/-- Lending market authority PDA derived inside the Solend SDK. -/
def LENDING_MARKET_AUTHORITY : PubKey := 10

/-- Instructions sysvar account referenced by the Solend repay instruction. -/
def SYSVAR_INSTRUCTIONS_PUBKEY : PubKey := 11

/-- Deterministic associated-token-address derivation from (mint, owner),
modelling getAssociatedTokenAddress; the offset keeps it clear of the fixed
program addresses above. -/
def getAssociatedTokenAddress (mint owner : PubKey) : PubKey :=
  100 + Nat.pair mint owner

/-- One account reference of an instruction. -/
structure AccountMeta where
  pubkey : PubKey
  isSigner : Bool
  isWritable : Bool
deriving DecidableEq, Repr

/-- A ledger instruction: program id, ordered account references, and a raw
byte payload. -/
structure Instruction where
  programId : PubKey
  keys : List AccountMeta
  data : List Nat
deriving DecidableEq, Repr

/-- Little-endian byte encoding of a 64-bit unsigned integer. -/
def u64le (n : Nat) : List Nat :=
  (List.range 8).map fun i => n / 256 ^ i % 256

/-- Little-endian byte encoding of a 32-bit unsigned integer. -/
def u32le (n : Nat) : List Nat :=
  (List.range 4).map fun i => n / 256 ^ i % 256

/-- Byte encoding of a rational amount as the 64-bit integer the source
obtains by converting the decimal amount string (BN / BigInt). -/
def amountBytes (q : ℚ) : List Nat :=
  u64le (Int.toNat ⌊q⌋)

/-- createAssociatedTokenAccountInstruction from spl-token: empty payload,
payer signs and pays, the new associated account is written. -/
def createAssociatedTokenAccountInstruction
    (payer ata owner mint : PubKey) : Instruction :=
  { programId := ASSOCIATED_TOKEN_PROGRAM_ID
    keys := [⟨payer, true, true⟩, ⟨ata, false, true⟩, ⟨owner, false, false⟩,
             ⟨mint, false, false⟩, ⟨SYSTEM_PROGRAM_ID, false, false⟩,
             ⟨TOKEN_PROGRAM_ID, false, false⟩]
    data := [] }

/-- SystemProgram.transfer: discriminant 2 (u32) followed by the lamport
amount (u64). -/
def systemTransfer (fromPubkey toPubkey : PubKey) (lamports : ℚ) : Instruction :=
  { programId := SYSTEM_PROGRAM_ID
    keys := [⟨fromPubkey, true, true⟩, ⟨toPubkey, false, true⟩]
    data := u32le 2 ++ amountBytes lamports }

/-- createSyncNativeInstruction from spl-token: token instruction 17. -/
def createSyncNativeInstruction (account : PubKey) : Instruction :=
  { programId := TOKEN_PROGRAM_ID
    keys := [⟨account, false, true⟩]
    data := [17] }

/-- createCloseAccountInstruction from spl-token: token instruction 9;
first key is the account being closed. -/
def createCloseAccountInstruction (account destination authority : PubKey) :
    Instruction :=
  { programId := TOKEN_PROGRAM_ID
    keys := [⟨account, false, true⟩, ⟨destination, false, true⟩,
             ⟨authority, true, false⟩]
    data := [9] }

/-- flashBorrowReserveLiquidityInstruction from the Solend SDK: lending
instruction 19 followed by the u64 liquidity amount. -/
def flashBorrowReserveLiquidityInstruction
    (liquidityAmount : ℚ)
    (sourceLiquidity destinationLiquidity reserve lendingMarket
      lendingProgramId : PubKey) : Instruction :=
  { programId := lendingProgramId
    keys := [⟨sourceLiquidity, false, true⟩, ⟨destinationLiquidity, false, true⟩,
             ⟨reserve, false, true⟩, ⟨lendingMarket, false, false⟩,
             ⟨LENDING_MARKET_AUTHORITY, false, false⟩,
             ⟨SYSVAR_INSTRUCTIONS_PUBKEY, false, false⟩,
             ⟨TOKEN_PROGRAM_ID, false, false⟩]
    data := 19 :: amountBytes liquidityAmount }

/-- flashRepayReserveLiquidityInstruction from the Solend SDK: lending
instruction 20, the u64 liquidity amount, then the one-byte index of the
borrow instruction inside the same transaction. -/
def flashRepayReserveLiquidityInstruction
    (liquidityAmount : ℚ) (borrowInstructionIndex : Nat)
    (sourceLiquidity destinationLiquidity reserveLiquidityFeeReceiver
      hostFeeReceiver reserve lendingMarket userTransferAuthority
      lendingProgramId : PubKey) : Instruction :=
  { programId := lendingProgramId
    keys := [⟨sourceLiquidity, false, true⟩, ⟨destinationLiquidity, false, true⟩,
             ⟨reserveLiquidityFeeReceiver, false, true⟩,
             ⟨hostFeeReceiver, false, true⟩, ⟨reserve, false, true⟩,
             ⟨lendingMarket, false, false⟩,
             ⟨userTransferAuthority, true, false⟩,
             ⟨SYSVAR_INSTRUCTIONS_PUBKEY, false, false⟩,
             ⟨TOKEN_PROGRAM_ID, false, false⟩]
    data := 20 :: amountBytes liquidityAmount ++ [borrowInstructionIndex % 256] }

/-- ComputeBudgetProgram.setComputeUnitLimit: discriminant 2, u32 units. -/
def setComputeUnitLimit (units : Nat) : Instruction :=
  { programId := COMPUTE_BUDGET_PROGRAM_ID
    keys := []
    data := 2 :: u32le units }

/-- ComputeBudgetProgram.setComputeUnitPrice: discriminant 3, u64 price in
micro-lamports. -/
def setComputeUnitPrice (microLamports : Nat) : Instruction :=
  { programId := COMPUTE_BUDGET_PROGRAM_ID
    keys := []
    data := 3 :: u64le microLamports }

/-- A Jupiter quote response; only the fields the source reads are kept.
Amount strings are modelled as rationals, the route plan as an opaque list
whose length is the number of hops. -/
structure JupiterQuoteResponse where
  inAmount : ℚ
  outAmount : ℚ
  priceImpactPct : ℚ
  routePlan : List Unit
deriving DecidableEq, Repr

/-- The parameters of a Jupiter quote request (the URL parameters the
source builds; cluster and the direct-route flags do not influence the
modelled behaviour and are omitted). -/
structure QuoteRequest where
  inputMint : PubKey
  outputMint : PubKey
  amount : ℚ
  slippageBps : Nat
deriving DecidableEq, Repr

/-- Errors surfaced by the build pipeline. -/
inductive BuildError where
  /-- "Jupiter returned a multi-hop route despite requesting direct routes
  only" -/
  | multiHopRouteRejected
  /-- "No valid lookup tables available for transaction compilation" -/
  | noValidLookupTables
  /-- "Transaction too large for Solana limits. Try a smaller amount or
  different token." (second builder document only) -/
  | transactionTooLarge
  /-- Any other propagated Error, carrying its message. -/
  | buildFailed (message : String)
deriving DecidableEq, Repr

instance {ε α : Type} [DecidableEq ε] [DecidableEq α] :
    DecidableEq (Except ε α) := fun x y =>
  match x, y with
  | .ok a, .ok b =>
    if h : a = b then .isTrue (by rw [h])
    else .isFalse (by intro hh; cases hh; exact h rfl)
  | .error a, .error b =>
    if h : a = b then .isTrue (by rw [h])
    else .isFalse (by intro hh; cases hh; exact h rfl)
  | .ok _, .error _ => .isFalse (by intro hh; cases hh)
  | .error _, .ok _ => .isFalse (by intro hh; cases hh)

/-- getJupiterQuote: fetch the quote for the request and reject it when the
route plan has more than one hop. -/
def getJupiterQuote (fetchQuote : QuoteRequest → JupiterQuoteResponse)
    (req : QuoteRequest) : Except BuildError JupiterQuoteResponse :=
  let quote := fetchQuote req
  if quote.routePlan.length > 1 then .error .multiHopRouteRejected
  else .ok quote

/-- Result record of estimateWSOLForTokenSwap. -/
structure EstimateResult where
  wsolAmount : ℚ
  wsolInLamports : ℚ
  rate : ℚ
  quote : JupiterQuoteResponse
deriving DecidableEq, Repr

/-- estimateWSOLForTokenSwap: quote one SOL (1e9 lamports) into the target
token, read the implied rate from the quoted output, and divide the desired
target amount by the rate; the lamport amount is floored as in the source
(Math.floor of the product with 1e9). -/
def estimateWSOLForTokenSwap (fetchQuote : QuoteRequest → JupiterQuoteResponse)
    (targetToken : PubKey) (slippageBps : Nat) (desiredTargetAmount : ℚ) :
    Except BuildError EstimateResult :=
  match getJupiterQuote fetchQuote
      ⟨WSOL_MINT_KEY, targetToken, 1000000000, slippageBps⟩ with
  | .error e => .error e
  | .ok quote =>
    let tokensPerSOL := quote.outAmount
    let requiredSOL := desiredTargetAmount / tokensPerSOL
    let wsolInLamports : ℚ := ((⌊requiredSOL * 1000000000⌋ : ℤ) : ℚ)
    .ok ⟨requiredSOL, wsolInLamports, tokensPerSOL, quote⟩

/-- createFlashLoanIx: the fixed four-instruction escrow setup — create the
WSOL associated account, fund it with lamports, sync its native balance,
then flash-borrow into it. -/
def createFlashLoanIx (tokenAccount walletPublicKey : PubKey)
    (wsolAmount : ℚ) : List Instruction :=
  [createAssociatedTokenAccountInstruction walletPublicKey tokenAccount
     walletPublicKey NATIVE_MINT,
   systemTransfer walletPublicKey tokenAccount wsolAmount,
   createSyncNativeInstruction tokenAccount,
   flashBorrowReserveLiquidityInstruction wsolAmount SUPPLYPUBKEY
     tokenAccount RESERVE_ADDRESS LENDING_MARKET LENDING_PROGRAM_ID]

/-- State of an address lookup table; the compile-time validation only
checks that the state and its backing address list are present. -/
structure LookupTableState where
  addresses : Option (List PubKey)
deriving DecidableEq, Repr

/-- An address lookup table account as seen by the compile step. -/
structure AddressLookupTableAccount where
  state : Option LookupTableState
deriving DecidableEq, Repr

/-- Result of the swap instruction adapter. -/
structure SwapResult where
  instructions : List Instruction
  lookupTableAccounts : List AddressLookupTableAccount
  quote : JupiterQuoteResponse
deriving DecidableEq, Repr

/-- getSwapInstructionsFromJupiter (first builder document): fetch a quote,
decode the swap transaction (its instruction list is supplied by the
environment as rawSwapInstructions), drop compute-budget instructions, drop
token close-account instructions (payload byte 0 equal to 9), and return an
empty lookup-table list. -/
def getSwapInstructionsFromJupiter
    (fetchQuote : QuoteRequest → JupiterQuoteResponse)
    (rawSwapInstructions : List Instruction)
    (inputMint outputMint : PubKey) (amount : ℚ) (slippageBps : Nat)
    (userPublicKey : PubKey) : Except BuildError SwapResult :=
  match getJupiterQuote fetchQuote ⟨inputMint, outputMint, amount, slippageBps⟩ with
  | .error e => .error e
  | .ok quote =>
    let instructions := rawSwapInstructions.filter fun ix =>
      !(ix.programId == COMPUTE_BUDGET_PROGRAM_ID)
    let instructions := instructions.filter fun ix =>
      !(ix.programId == TOKEN_PROGRAM_ID && ix.data.head? == some 9)
    .ok { instructions := instructions, lookupTableAccounts := [], quote := quote }

/-- getSwapInstructionsFromJupiter (second builder document): same fetch and
filters, then additionally rewrite token transfer instructions (payload
byte 0 equal to 3): every account reference that is the user wallet with
the signer flag set is replaced by the WSOL token account with the signer
flag cleared. -/
def getSwapInstructionsFromJupiterV2
    (fetchQuote : QuoteRequest → JupiterQuoteResponse)
    (rawSwapInstructions : List Instruction)
    (inputMint outputMint : PubKey) (amount : ℚ) (slippageBps : Nat)
    (userPublicKey wsolTokenAccount : PubKey) : Except BuildError SwapResult :=
  match getJupiterQuote fetchQuote ⟨inputMint, outputMint, amount, slippageBps⟩ with
  | .error e => .error e
  | .ok quote =>
    let instructions := rawSwapInstructions.filter fun ix =>
      !(ix.programId == COMPUTE_BUDGET_PROGRAM_ID)
    let instructions := instructions.filter fun ix =>
      !(ix.programId == TOKEN_PROGRAM_ID && ix.data.head? == some 9)
    let instructions := instructions.map fun ix =>
      if ix.programId == TOKEN_PROGRAM_ID && ix.data.head? == some 3 then
        { ix with keys := ix.keys.map fun key =>
            if key.pubkey == userPublicKey && key.isSigner then
              { key with pubkey := wsolTokenAccount, isSigner := false }
            else key }
      else ix
    .ok { instructions := instructions, lookupTableAccounts := [], quote := quote }

/-- The compiled transaction envelope: the message produced by
compileToV0Message keeps the fee payer, the recent blockhash, the full
instruction list and the lookup tables that were passed in. -/
structure CompiledTransaction where
  payerKey : PubKey
  recentBlockhash : Nat
  instructions : List Instruction
  lookupTables : Option (List AddressLookupTableAccount)
deriving DecidableEq, Repr

/-- The fixed protocol addresses echoed in the build output. -/
structure BuildAddresses where
  reserveAddress : PubKey
  lendingMarket : PubKey
  lendingProgramId : PubKey
  supplyPubkey : PubKey
  feeReceiverAddress : PubKey
  wsolAccount : PubKey
deriving DecidableEq, Repr

/-- The record returned by a successful build call. -/
structure BuildOutput where
  transaction : CompiledTransaction
  quote : JupiterQuoteResponse
  estimatedOutput : ℚ
  priceImpact : ℚ
  route : List Unit
  market : PubKey
  solReserve : PubKey
  borrowedAmount : ℚ
  addresses : BuildAddresses
deriving DecidableEq, Repr

/-- The environment a build call runs in: the responses of the Jupiter
quote endpoint, the instruction list decoded from the swap endpoint
response, the latest blockhash, and the outcome of the web3 compile step
(none when compileToV0Message succeeds, some message when it throws). -/
structure BuildEnv where
  fetchQuote : QuoteRequest → JupiterQuoteResponse
  rawSwapInstructions : List Instruction
  latestBlockhash : Nat
  compileError : Option String

/-- Whether the character list starts with the needle. -/
def listStartsWith : List Char → List Char → Bool
  | _, [] => true
  | [], _ :: _ => false
  | c :: cs, d :: ds => c == d && listStartsWith cs ds

/-- Whether the needle occurs anywhere in the haystack. -/
def listIncludes : List Char → List Char → Bool
  | [], needle => needle.isEmpty
  | c :: rest, needle => listStartsWith (c :: rest) needle || listIncludes rest needle

/-- JavaScript String.prototype.includes, on the underlying characters. -/
def stringIncludes (s needle : String) : Bool :=
  listIncludes s.data needle.data

/-- Structural well-formedness of a lookup table as checked before
compilation: the state and its address list must be present. -/
def isValidLookupTable (table : AddressLookupTableAccount) : Bool :=
  match table.state with
  | some s => s.addresses.isSome
  | none => false

/-- buildSimulatedFlashLoanInstructions, first builder document: estimate
the WSOL borrow amount from a reference quote, build the four setup
instructions, fetch and filter the swap instructions, then assemble
setup ++ compute budget ++ swap ++ user ++ [repay, close], validate lookup
tables and compile.  Network responses and the compile outcome come from
the environment; the thunk form of userInstructions is modelled as the
resolved list. -/
def buildSimulatedFlashLoanInstructions (env : BuildEnv)
    (targetTokenMint : PubKey) (desiredTargetAmount : ℚ) (slippageBps : Nat)
    (userInstructions : List Instruction) (walletPublicKey : PubKey) :
    Except BuildError BuildOutput :=
  match estimateWSOLForTokenSwap env.fetchQuote targetTokenMint slippageBps
      desiredTargetAmount with
  | .error e => .error e
  | .ok est =>
    let wsolInLamports := est.wsolInLamports
    let tokenAccount := getAssociatedTokenAddress WSOL_MINT_KEY walletPublicKey
    let flashLoanIxs := createFlashLoanIx tokenAccount walletPublicKey wsolInLamports
    match getSwapInstructionsFromJupiter env.fetchQuote env.rawSwapInstructions
        WSOL_MINT_KEY targetTokenMint wsolInLamports slippageBps walletPublicKey with
    | .error e => .error e
    | .ok swapRes =>
      let BORROW_INSTRUCTION_INDEX := 3
      let repay := flashRepayReserveLiquidityInstruction wsolInLamports
        BORROW_INSTRUCTION_INDEX tokenAccount SUPPLYPUBKEY FEE_RECEIVER_ADDRESS
        tokenAccount RESERVE_ADDRESS LENDING_MARKET walletPublicKey
        LENDING_PROGRAM_ID
      let closeWSOLAccount := createCloseAccountInstruction tokenAccount
        walletPublicKey walletPublicKey
      let computeBudgetIx := setComputeUnitLimit 2000000
      let priorityFeeIx := setComputeUnitPrice 1000
      let allInstructions :=
        flashLoanIxs ++ [computeBudgetIx, priorityFeeIx]
          ++ swapRes.instructions ++ userInstructions
          ++ [repay, closeWSOLAccount]
      let validLookupTables := swapRes.lookupTableAccounts.filter isValidLookupTable
      if swapRes.lookupTableAccounts.length > 0 ∧ validLookupTables.length = 0 then
        .error .noValidLookupTables
      else
        match env.compileError with
        | some msg => .error (.buildFailed msg)
        | none =>
          .ok { transaction :=
                  { payerKey := walletPublicKey
                    recentBlockhash := env.latestBlockhash
                    instructions := allInstructions
                    lookupTables :=
                      if validLookupTables.length > 0 then some validLookupTables
                      else none }
                quote := swapRes.quote
                estimatedOutput := swapRes.quote.outAmount
                priceImpact := swapRes.quote.priceImpactPct
                route := swapRes.quote.routePlan
                market := LENDING_MARKET
                solReserve := RESERVE_ADDRESS
                borrowedAmount := wsolInLamports
                addresses :=
                  { reserveAddress := RESERVE_ADDRESS
                    lendingMarket := LENDING_MARKET
                    lendingProgramId := LENDING_PROGRAM_ID
                    supplyPubkey := SUPPLYPUBKEY
                    feeReceiverAddress := FEE_RECEIVER_ADDRESS
                    wsolAccount := tokenAccount } }

/-- buildSimulatedFlashLoanInstructionsV2, second builder document: the
desired amount is the WSOL amount itself (times 1e9), a fixed 3000 lamport
fee is reserved out of the swap leg, the borrow and repay both use the full
amount, the compute budget is 1.4M units at 500 micro-lamports, and a
compile failure whose message contains "too large" is surfaced as the
distinct transaction-too-large error. -/
def buildSimulatedFlashLoanInstructionsV2 (env : BuildEnv)
    (targetTokenMint : PubKey) (desiredTargetAmount : ℚ) (slippageBps : Nat)
    (userInstructions : List Instruction) (walletPublicKey : PubKey) :
    Except BuildError BuildOutput :=
  let totalWSOL : ℚ := desiredTargetAmount * 1000000000
  let flashLoanFee : ℚ := 3000
  let swapAmount := totalWSOL - flashLoanFee
  let wsolInLamports := totalWSOL
  match getJupiterQuote env.fetchQuote
      ⟨WSOL_MINT_KEY, targetTokenMint, swapAmount, slippageBps⟩ with
  | .error e => .error e
  | .ok quote =>
    let tokenAccount := getAssociatedTokenAddress WSOL_MINT_KEY walletPublicKey
    let flashLoanIxs := createFlashLoanIx tokenAccount walletPublicKey wsolInLamports
    match getSwapInstructionsFromJupiterV2 env.fetchQuote env.rawSwapInstructions
        WSOL_MINT_KEY targetTokenMint swapAmount slippageBps walletPublicKey
        tokenAccount with
    | .error e => .error e
    | .ok swapRes =>
      let BORROW_INSTRUCTION_INDEX := 3
      let repay := flashRepayReserveLiquidityInstruction wsolInLamports
        BORROW_INSTRUCTION_INDEX tokenAccount SUPPLYPUBKEY FEE_RECEIVER_ADDRESS
        tokenAccount RESERVE_ADDRESS LENDING_MARKET walletPublicKey
        LENDING_PROGRAM_ID
      let closeWSOLAccount := createCloseAccountInstruction tokenAccount
        walletPublicKey walletPublicKey
      let computeBudgetIx := setComputeUnitLimit 1400000
      let priorityFeeIx := setComputeUnitPrice 500
      let allInstructions :=
        flashLoanIxs ++ [computeBudgetIx, priorityFeeIx]
          ++ swapRes.instructions ++ userInstructions
          ++ [repay, closeWSOLAccount]
      let validLookupTables := swapRes.lookupTableAccounts.filter isValidLookupTable
      if swapRes.lookupTableAccounts.length > 0 ∧ validLookupTables.length = 0 then
        .error .noValidLookupTables
      else
        match env.compileError with
        | some msg =>
          if stringIncludes msg "too large" then .error .transactionTooLarge
          else .error (.buildFailed msg)
        | none =>
          .ok { transaction :=
                  { payerKey := walletPublicKey
                    recentBlockhash := env.latestBlockhash
                    instructions := allInstructions
                    lookupTables :=
                      if validLookupTables.length > 0 then some validLookupTables
                      else none }
                quote := quote
                estimatedOutput := quote.outAmount
                priceImpact := quote.priceImpactPct
                route := quote.routePlan
                market := LENDING_MARKET
                solReserve := RESERVE_ADDRESS
                borrowedAmount := wsolInLamports
                addresses :=
                  { reserveAddress := RESERVE_ADDRESS
                    lendingMarket := LENDING_MARKET
                    lendingProgramId := LENDING_PROGRAM_ID
                    supplyPubkey := SUPPLYPUBKEY
                    feeReceiverAddress := FEE_RECEIVER_ADDRESS
                    wsolAccount := tokenAccount } }

/-! ### Derived characterisations of the success path

The following definitions name the intermediate values of the two builders;
the lemmas below prove that each builder, when every quote response is a
direct route, returns exactly these values (or maps the compile failure as
shown).  They are observation helpers for the theorems, not part of the
embedding itself. -/

/-- The reference quote the first builder obtains through the estimator:
one SOL (1e9 lamports) into the target token. -/
def v1RefQuote (env : BuildEnv) (t : PubKey) (s : Nat) : JupiterQuoteResponse :=
  env.fetchQuote ⟨WSOL_MINT_KEY, t, 1000000000, s⟩

/-- The borrow amount (in lamports) the first builder derives from the
reference quote. -/
def v1WsolInLamports (env : BuildEnv) (t : PubKey) (s : Nat) (d : ℚ) : ℚ :=
  ((⌊d / (v1RefQuote env t s).outAmount * 1000000000⌋ : ℤ) : ℚ)

/-- The quote the first builder's swap adapter obtains for the borrow
amount. -/
def v1SwapQuote (env : BuildEnv) (t : PubKey) (s : Nat) (d : ℚ) :
    JupiterQuoteResponse :=
  env.fetchQuote ⟨WSOL_MINT_KEY, t, v1WsolInLamports env t s d, s⟩

/-- The two filter passes both adapters apply to the decoded swap
instructions: drop compute-budget instructions, then drop token
close-account instructions. -/
def jupiterFilteredInstructions (raw : List Instruction) : List Instruction :=
  (raw.filter fun ix => !(ix.programId == COMPUTE_BUDGET_PROGRAM_ID)).filter
    fun ix => !(ix.programId == TOKEN_PROGRAM_ID && ix.data.head? == some 9)

/-- The account rewrite the second adapter applies to token transfer
instructions. -/
def rewriteTransferIx (userPublicKey wsolTokenAccount : PubKey)
    (ix : Instruction) : Instruction :=
  if ix.programId == TOKEN_PROGRAM_ID && ix.data.head? == some 3 then
    { ix with keys := ix.keys.map fun key =>
        if key.pubkey == userPublicKey && key.isSigner then
          { key with pubkey := wsolTokenAccount, isSigner := false }
        else key }
  else ix

/-- The full instruction list the first builder assembles. -/
def v1AllInstructions (env : BuildEnv) (t : PubKey) (d : ℚ) (s : Nat)
    (u : List Instruction) (w : PubKey) : List Instruction :=
  let amt := v1WsolInLamports env t s d
  let tokenAccount := getAssociatedTokenAddress WSOL_MINT_KEY w
  createFlashLoanIx tokenAccount w amt
    ++ [setComputeUnitLimit 2000000, setComputeUnitPrice 1000]
    ++ jupiterFilteredInstructions env.rawSwapInstructions ++ u
    ++ [flashRepayReserveLiquidityInstruction amt 3 tokenAccount SUPPLYPUBKEY
          FEE_RECEIVER_ADDRESS tokenAccount RESERVE_ADDRESS LENDING_MARKET w
          LENDING_PROGRAM_ID,
        createCloseAccountInstruction tokenAccount w w]

/-- The output record of a successful first-builder call. -/
def v1Result (env : BuildEnv) (t : PubKey) (d : ℚ) (s : Nat)
    (u : List Instruction) (w : PubKey) : BuildOutput :=
  { transaction :=
      { payerKey := w
        recentBlockhash := env.latestBlockhash
        instructions := v1AllInstructions env t d s u w
        lookupTables := none }
    quote := v1SwapQuote env t s d
    estimatedOutput := (v1SwapQuote env t s d).outAmount
    priceImpact := (v1SwapQuote env t s d).priceImpactPct
    route := (v1SwapQuote env t s d).routePlan
    market := LENDING_MARKET
    solReserve := RESERVE_ADDRESS
    borrowedAmount := v1WsolInLamports env t s d
    addresses :=
      { reserveAddress := RESERVE_ADDRESS
        lendingMarket := LENDING_MARKET
        lendingProgramId := LENDING_PROGRAM_ID
        supplyPubkey := SUPPLYPUBKEY
        feeReceiverAddress := FEE_RECEIVER_ADDRESS
        wsolAccount := getAssociatedTokenAddress WSOL_MINT_KEY w } }

/-- The swap amount of the second builder: the full borrow minus the 3000
lamport fee reserve. -/
def v2SwapAmount (d : ℚ) : ℚ := d * 1000000000 - 3000

/-- The single quote response both quote calls of the second builder
receive (they issue the same request). -/
def v2Quote (env : BuildEnv) (t : PubKey) (s : Nat) (d : ℚ) :
    JupiterQuoteResponse :=
  env.fetchQuote ⟨WSOL_MINT_KEY, t, v2SwapAmount d, s⟩

/-- The full instruction list the second builder assembles. -/
def v2AllInstructions (env : BuildEnv) (t : PubKey) (d : ℚ) (s : Nat)
    (u : List Instruction) (w : PubKey) : List Instruction :=
  let amt : ℚ := d * 1000000000
  let tokenAccount := getAssociatedTokenAddress WSOL_MINT_KEY w
  createFlashLoanIx tokenAccount w amt
    ++ [setComputeUnitLimit 1400000, setComputeUnitPrice 500]
    ++ (jupiterFilteredInstructions env.rawSwapInstructions).map
        (rewriteTransferIx w tokenAccount) ++ u
    ++ [flashRepayReserveLiquidityInstruction amt 3 tokenAccount SUPPLYPUBKEY
          FEE_RECEIVER_ADDRESS tokenAccount RESERVE_ADDRESS LENDING_MARKET w
          LENDING_PROGRAM_ID,
        createCloseAccountInstruction tokenAccount w w]

/-- The output record of a successful second-builder call. -/
def v2Result (env : BuildEnv) (t : PubKey) (d : ℚ) (s : Nat)
    (u : List Instruction) (w : PubKey) : BuildOutput :=
  { transaction :=
      { payerKey := w
        recentBlockhash := env.latestBlockhash
        instructions := v2AllInstructions env t d s u w
        lookupTables := none }
    quote := v2Quote env t s d
    estimatedOutput := (v2Quote env t s d).outAmount
    priceImpact := (v2Quote env t s d).priceImpactPct
    route := (v2Quote env t s d).routePlan
    market := LENDING_MARKET
    solReserve := RESERVE_ADDRESS
    borrowedAmount := d * 1000000000
    addresses :=
      { reserveAddress := RESERVE_ADDRESS
        lendingMarket := LENDING_MARKET
        lendingProgramId := LENDING_PROGRAM_ID
        supplyPubkey := SUPPLYPUBKEY
        feeReceiverAddress := FEE_RECEIVER_ADDRESS
        wsolAccount := getAssociatedTokenAddress WSOL_MINT_KEY w } }

lemma getJupiterQuote_ok (fetchQuote : QuoteRequest → JupiterQuoteResponse)
    (req : QuoteRequest) (h : (fetchQuote req).routePlan.length ≤ 1) :
    getJupiterQuote fetchQuote req = .ok (fetchQuote req) := by
  unfold getJupiterQuote
  rw [if_neg (by omega)]

lemma getJupiterQuote_cases (fetchQuote : QuoteRequest → JupiterQuoteResponse)
    (req : QuoteRequest) :
    getJupiterQuote fetchQuote req = .ok (fetchQuote req) ∨
      getJupiterQuote fetchQuote req = .error .multiHopRouteRejected := by
  by_cases h : (fetchQuote req).routePlan.length > 1
  · exact Or.inr (by unfold getJupiterQuote; rw [if_pos h])
  · exact Or.inl (by unfold getJupiterQuote; rw [if_neg h])

lemma getJupiterQuote_reject (fetchQuote : QuoteRequest → JupiterQuoteResponse)
    (req : QuoteRequest) (h : (fetchQuote req).routePlan.length > 1) :
    getJupiterQuote fetchQuote req = .error .multiHopRouteRejected := by
  unfold getJupiterQuote
  rw [if_pos h]

lemma estimateWSOLForTokenSwap_ok (fetchQuote : QuoteRequest → JupiterQuoteResponse)
    (t : PubKey) (s : Nat) (d : ℚ)
    (h : (fetchQuote ⟨WSOL_MINT_KEY, t, 1000000000, s⟩).routePlan.length ≤ 1) :
    estimateWSOLForTokenSwap fetchQuote t s d =
      .ok ⟨d / (fetchQuote ⟨WSOL_MINT_KEY, t, 1000000000, s⟩).outAmount,
           ((⌊d / (fetchQuote ⟨WSOL_MINT_KEY, t, 1000000000, s⟩).outAmount
               * 1000000000⌋ : ℤ) : ℚ),
           (fetchQuote ⟨WSOL_MINT_KEY, t, 1000000000, s⟩).outAmount,
           fetchQuote ⟨WSOL_MINT_KEY, t, 1000000000, s⟩⟩ := by
  unfold estimateWSOLForTokenSwap
  rw [getJupiterQuote_ok _ _ h]

lemma getSwapInstructionsFromJupiter_ok
    (fetchQuote : QuoteRequest → JupiterQuoteResponse)
    (raw : List Instruction) (i o : PubKey) (a : ℚ) (s : Nat) (up : PubKey)
    (h : (fetchQuote ⟨i, o, a, s⟩).routePlan.length ≤ 1) :
    getSwapInstructionsFromJupiter fetchQuote raw i o a s up =
      .ok ⟨jupiterFilteredInstructions raw, [], fetchQuote ⟨i, o, a, s⟩⟩ := by
  unfold getSwapInstructionsFromJupiter
  rw [getJupiterQuote_ok _ _ h]
  rfl

lemma getSwapInstructionsFromJupiterV2_ok
    (fetchQuote : QuoteRequest → JupiterQuoteResponse)
    (raw : List Instruction) (i o : PubKey) (a : ℚ) (s : Nat)
    (up wsolTokenAccount : PubKey)
    (h : (fetchQuote ⟨i, o, a, s⟩).routePlan.length ≤ 1) :
    getSwapInstructionsFromJupiterV2 fetchQuote raw i o a s up wsolTokenAccount =
      .ok ⟨(jupiterFilteredInstructions raw).map
             (rewriteTransferIx up wsolTokenAccount),
           [], fetchQuote ⟨i, o, a, s⟩⟩ := by
  unfold getSwapInstructionsFromJupiterV2
  rw [getJupiterQuote_ok _ _ h]
  rfl

lemma buildSimulatedFlashLoanInstructions_eq (env : BuildEnv) (t : PubKey)
    (d : ℚ) (s : Nat) (u : List Instruction) (w : PubKey)
    (h1 : (v1RefQuote env t s).routePlan.length ≤ 1)
    (h2 : (v1SwapQuote env t s d).routePlan.length ≤ 1) :
    buildSimulatedFlashLoanInstructions env t d s u w =
      match env.compileError with
      | some msg => .error (.buildFailed msg)
      | none => .ok (v1Result env t d s u w) := by
  simp only [v1RefQuote] at h1
  simp only [v1SwapQuote, v1WsolInLamports, v1RefQuote] at h2
  have h1n := Nat.not_lt.mpr h1
  have h2n := Nat.not_lt.mpr h2
  simp only [buildSimulatedFlashLoanInstructions, estimateWSOLForTokenSwap,
    getSwapInstructionsFromJupiter, getJupiterQuote, if_neg h1n, if_neg h2n]
  rfl

lemma buildSimulatedFlashLoanInstructionsV2_eq (env : BuildEnv) (t : PubKey)
    (d : ℚ) (s : Nat) (u : List Instruction) (w : PubKey)
    (h : (v2Quote env t s d).routePlan.length ≤ 1) :
    buildSimulatedFlashLoanInstructionsV2 env t d s u w =
      match env.compileError with
      | some msg =>
        if stringIncludes msg "too large" then .error .transactionTooLarge
        else .error (.buildFailed msg)
      | none => .ok (v2Result env t d s u w) := by
  simp only [v2Quote, v2SwapAmount] at h
  have hn := Nat.not_lt.mpr h
  simp only [buildSimulatedFlashLoanInstructionsV2, getSwapInstructionsFromJupiterV2,
    getJupiterQuote, if_neg hn]
  rfl

/-! ### Shared list helpers and demonstration fixtures -/

lemma getLast_of_append_pair {α : Type} (B : List α) (r c : α) :
    (B ++ [r, c]).getLast? = some c := by
  simp [List.getLast?_append]

lemma dropLast_getLast_of_append_pair {α : Type} (B : List α) (r c : α) :
    ((B ++ [r, c]).dropLast).getLast? = some r := by
  rw [List.dropLast_append_cons]
  simp

lemma amountBytes_length (q : ℚ) : (amountBytes q).length = 8 := by
  simp [amountBytes, u64le]

/-- The borrow-instruction index declared inside a repay instruction is the
byte at offset 9 of its payload (after the discriminant and the u64
amount). -/
lemma flashRepay_borrowIndexByte (amt : ℚ) (idx : Nat)
    (a b c e f g i j : PubKey) :
    (flashRepayReserveLiquidityInstruction amt idx a b c e f g i j).data[9]? =
      some (idx % 256) := by
  show (20 :: (amountBytes amt ++ [idx % 256]))[9]? = some (idx % 256)
  rw [List.getElem?_cons_succ]
  rw [List.getElem?_append_right (by rw [amountBytes_length])]
  rw [amountBytes_length]
  simp

/-- A demonstration quote: one direct hop, 500 target units out per SOL. -/
def demoQuote : JupiterQuoteResponse := ⟨1000000000, 500, 0, [()]⟩

/-- A demonstration multi-hop quote (two hops). -/
def demoMultiHopQuote : JupiterQuoteResponse := ⟨1000000000, 500, 0, [(), ()]⟩

/-- A quote service that always answers with the direct demo quote. -/
def demoFetch : QuoteRequest → JupiterQuoteResponse := fun _ => demoQuote

/-- A quote service that always answers with the multi-hop quote. -/
def demoMultiHopFetch : QuoteRequest → JupiterQuoteResponse :=
  fun _ => demoMultiHopQuote

/-- Demonstration wallet key. -/
def demoWallet : PubKey := 42

/-- Demonstration target token mint. -/
def demoTarget : PubKey := 77

/-- The escrow (WSOL associated token account) of the demo wallet. -/
def demoEscrow : PubKey := getAssociatedTokenAddress WSOL_MINT_KEY demoWallet

/-- Demonstration environment: direct quotes, no swap instructions, compile
succeeds. -/
def demoEnv : BuildEnv := ⟨demoFetch, [], 1234, none⟩

/-- Environment whose quote service returns multi-hop routes. -/
def demoMultiHopEnv : BuildEnv := ⟨demoMultiHopFetch, [], 1234, none⟩

/-- Environment where the compile step throws a size error. -/
def demoTooLargeEnv : BuildEnv :=
  ⟨demoFetch, [], 1234, some "Transaction too large: 1300 > 1232"⟩

/-! ### C1 -/

/-- C1.  In every instruction list either builder produces, the escrow
setup sequence (create escrow account, fund, sync, borrow) occupies exactly
indices 0 to 3, the borrow instruction sits at index 3, and the
borrow-instruction index declared inside the repay instruction (payload
byte 9) is exactly 3, the actual position of the borrow instruction. -/
theorem c1_borrow_index_alignment :
    (∀ (env : BuildEnv) (t : PubKey) (d : ℚ) (s : Nat) (u : List Instruction)
        (w : PubKey),
      (v1RefQuote env t s).routePlan.length ≤ 1 →
      (v1SwapQuote env t s d).routePlan.length ≤ 1 →
      env.compileError = none →
      ∃ out, buildSimulatedFlashLoanInstructions env t d s u w = .ok out ∧
        out.transaction.instructions.take 4 =
          createFlashLoanIx (getAssociatedTokenAddress WSOL_MINT_KEY w) w
            (v1WsolInLamports env t s d) ∧
        out.transaction.instructions[3]? =
          some (flashBorrowReserveLiquidityInstruction (v1WsolInLamports env t s d)
            SUPPLYPUBKEY (getAssociatedTokenAddress WSOL_MINT_KEY w)
            RESERVE_ADDRESS LENDING_MARKET LENDING_PROGRAM_ID) ∧
        out.transaction.instructions.dropLast.getLast? =
          some (flashRepayReserveLiquidityInstruction (v1WsolInLamports env t s d)
            3 (getAssociatedTokenAddress WSOL_MINT_KEY w) SUPPLYPUBKEY
            FEE_RECEIVER_ADDRESS (getAssociatedTokenAddress WSOL_MINT_KEY w)
            RESERVE_ADDRESS LENDING_MARKET w LENDING_PROGRAM_ID) ∧
        (flashRepayReserveLiquidityInstruction (v1WsolInLamports env t s d)
            3 (getAssociatedTokenAddress WSOL_MINT_KEY w) SUPPLYPUBKEY
            FEE_RECEIVER_ADDRESS (getAssociatedTokenAddress WSOL_MINT_KEY w)
            RESERVE_ADDRESS LENDING_MARKET w LENDING_PROGRAM_ID).data[9]? =
          some 3) ∧
    (∀ (env : BuildEnv) (t : PubKey) (d : ℚ) (s : Nat) (u : List Instruction)
        (w : PubKey),
      (v2Quote env t s d).routePlan.length ≤ 1 →
      env.compileError = none →
      ∃ out, buildSimulatedFlashLoanInstructionsV2 env t d s u w = .ok out ∧
        out.transaction.instructions.take 4 =
          createFlashLoanIx (getAssociatedTokenAddress WSOL_MINT_KEY w) w
            (d * 1000000000) ∧
        out.transaction.instructions[3]? =
          some (flashBorrowReserveLiquidityInstruction (d * 1000000000)
            SUPPLYPUBKEY (getAssociatedTokenAddress WSOL_MINT_KEY w)
            RESERVE_ADDRESS LENDING_MARKET LENDING_PROGRAM_ID) ∧
        out.transaction.instructions.dropLast.getLast? =
          some (flashRepayReserveLiquidityInstruction (d * 1000000000)
            3 (getAssociatedTokenAddress WSOL_MINT_KEY w) SUPPLYPUBKEY
            FEE_RECEIVER_ADDRESS (getAssociatedTokenAddress WSOL_MINT_KEY w)
            RESERVE_ADDRESS LENDING_MARKET w LENDING_PROGRAM_ID) ∧
        (flashRepayReserveLiquidityInstruction (d * 1000000000)
            3 (getAssociatedTokenAddress WSOL_MINT_KEY w) SUPPLYPUBKEY
            FEE_RECEIVER_ADDRESS (getAssociatedTokenAddress WSOL_MINT_KEY w)
            RESERVE_ADDRESS LENDING_MARKET w LENDING_PROGRAM_ID).data[9]? =
          some 3) := by
  constructor
  · intro env t d s u w h1 h2 h3
    refine ⟨v1Result env t d s u w, ?_, ?_, ?_, ?_, ?_⟩
    · rw [buildSimulatedFlashLoanInstructions_eq env t d s u w h1 h2, h3]
    · rfl
    · rfl
    · exact dropLast_getLast_of_append_pair _ _ _
    · exact flashRepay_borrowIndexByte _ _ _ _ _ _ _ _ _ _
  · intro env t d s u w h1 h3
    refine ⟨v2Result env t d s u w, ?_, ?_, ?_, ?_, ?_⟩
    · rw [buildSimulatedFlashLoanInstructionsV2_eq env t d s u w h1, h3]
    · rfl
    · rfl
    · exact dropLast_getLast_of_append_pair _ _ _
    · exact flashRepay_borrowIndexByte _ _ _ _ _ _ _ _ _ _

/-- Witness for C1: both builders applied to the demo environment (rate 500
per SOL, desired 1000000 target units, no swap or user instructions). -/
theorem c1_witness :
    (v1RefQuote demoEnv demoTarget 100).routePlan.length ≤ 1 ∧
    (v1SwapQuote demoEnv demoTarget 100 1000000).routePlan.length ≤ 1 ∧
    demoEnv.compileError = none ∧
    (v2Quote demoEnv demoTarget 100 1000000).routePlan.length ≤ 1 ∧
    (∃ out, buildSimulatedFlashLoanInstructions demoEnv demoTarget 1000000 100
        [] demoWallet = .ok out ∧
      out.transaction.instructions.take 4 =
        createFlashLoanIx (getAssociatedTokenAddress WSOL_MINT_KEY demoWallet)
          demoWallet (v1WsolInLamports demoEnv demoTarget 100 1000000) ∧
      out.transaction.instructions[3]? =
        some (flashBorrowReserveLiquidityInstruction
          (v1WsolInLamports demoEnv demoTarget 100 1000000) SUPPLYPUBKEY
          (getAssociatedTokenAddress WSOL_MINT_KEY demoWallet) RESERVE_ADDRESS
          LENDING_MARKET LENDING_PROGRAM_ID) ∧
      out.transaction.instructions.dropLast.getLast? =
        some (flashRepayReserveLiquidityInstruction
          (v1WsolInLamports demoEnv demoTarget 100 1000000) 3
          (getAssociatedTokenAddress WSOL_MINT_KEY demoWallet) SUPPLYPUBKEY
          FEE_RECEIVER_ADDRESS (getAssociatedTokenAddress WSOL_MINT_KEY demoWallet)
          RESERVE_ADDRESS LENDING_MARKET demoWallet LENDING_PROGRAM_ID) ∧
      (flashRepayReserveLiquidityInstruction
          (v1WsolInLamports demoEnv demoTarget 100 1000000) 3
          (getAssociatedTokenAddress WSOL_MINT_KEY demoWallet) SUPPLYPUBKEY
          FEE_RECEIVER_ADDRESS (getAssociatedTokenAddress WSOL_MINT_KEY demoWallet)
          RESERVE_ADDRESS LENDING_MARKET demoWallet LENDING_PROGRAM_ID).data[9]? =
        some 3) ∧
    (∃ out, buildSimulatedFlashLoanInstructionsV2 demoEnv demoTarget 1000000 100
        [] demoWallet = .ok out ∧
      out.transaction.instructions.take 4 =
        createFlashLoanIx (getAssociatedTokenAddress WSOL_MINT_KEY demoWallet)
          demoWallet ((1000000 : ℚ) * 1000000000) ∧
      out.transaction.instructions[3]? =
        some (flashBorrowReserveLiquidityInstruction ((1000000 : ℚ) * 1000000000)
          SUPPLYPUBKEY (getAssociatedTokenAddress WSOL_MINT_KEY demoWallet)
          RESERVE_ADDRESS LENDING_MARKET LENDING_PROGRAM_ID) ∧
      out.transaction.instructions.dropLast.getLast? =
        some (flashRepayReserveLiquidityInstruction ((1000000 : ℚ) * 1000000000) 3
          (getAssociatedTokenAddress WSOL_MINT_KEY demoWallet) SUPPLYPUBKEY
          FEE_RECEIVER_ADDRESS (getAssociatedTokenAddress WSOL_MINT_KEY demoWallet)
          RESERVE_ADDRESS LENDING_MARKET demoWallet LENDING_PROGRAM_ID) ∧
      (flashRepayReserveLiquidityInstruction ((1000000 : ℚ) * 1000000000) 3
          (getAssociatedTokenAddress WSOL_MINT_KEY demoWallet) SUPPLYPUBKEY
          FEE_RECEIVER_ADDRESS (getAssociatedTokenAddress WSOL_MINT_KEY demoWallet)
          RESERVE_ADDRESS LENDING_MARKET demoWallet LENDING_PROGRAM_ID).data[9]? =
        some 3) :=
  ⟨by decide, by decide, rfl, by decide,
   c1_borrow_index_alignment.1 demoEnv demoTarget 1000000 100 [] demoWallet
     (by decide) (by decide) rfl,
   c1_borrow_index_alignment.2 demoEnv demoTarget 1000000 100 [] demoWallet
     (by decide) rfl⟩

/-! ### C2 -/

lemma flashBorrow_data_tail (amt : ℚ) (a b c e f : PubKey) :
    (flashBorrowReserveLiquidityInstruction amt a b c e f).data.tail =
      amountBytes amt := rfl

lemma flashRepay_amount_bytes (amt : ℚ) (idx : Nat) (a b c e f g i j : PubKey) :
    ((flashRepayReserveLiquidityInstruction amt idx a b c e f g i j).data.tail).take 8 =
      amountBytes amt := by
  show ((amountBytes amt ++ [idx % 256]).take 8) = amountBytes amt
  rw [← amountBytes_length amt, List.take_left]

/-- C2.  In every produced plan the repay instruction carries exactly the
borrow amount (the same lamport value, hence the same encoded u64 payload),
no manual fee is added, and the borrowedAmount metadata equals that same
amount. -/
theorem c2_repay_equals_borrow :
    (∀ (env : BuildEnv) (t : PubKey) (d : ℚ) (s : Nat) (u : List Instruction)
        (w : PubKey),
      (v1RefQuote env t s).routePlan.length ≤ 1 →
      (v1SwapQuote env t s d).routePlan.length ≤ 1 →
      env.compileError = none →
      ∃ out, buildSimulatedFlashLoanInstructions env t d s u w = .ok out ∧
        out.transaction.instructions[3]? =
          some (flashBorrowReserveLiquidityInstruction (v1WsolInLamports env t s d)
            SUPPLYPUBKEY (getAssociatedTokenAddress WSOL_MINT_KEY w)
            RESERVE_ADDRESS LENDING_MARKET LENDING_PROGRAM_ID) ∧
        out.transaction.instructions.dropLast.getLast? =
          some (flashRepayReserveLiquidityInstruction (v1WsolInLamports env t s d)
            3 (getAssociatedTokenAddress WSOL_MINT_KEY w) SUPPLYPUBKEY
            FEE_RECEIVER_ADDRESS (getAssociatedTokenAddress WSOL_MINT_KEY w)
            RESERVE_ADDRESS LENDING_MARKET w LENDING_PROGRAM_ID) ∧
        ((flashRepayReserveLiquidityInstruction (v1WsolInLamports env t s d)
            3 (getAssociatedTokenAddress WSOL_MINT_KEY w) SUPPLYPUBKEY
            FEE_RECEIVER_ADDRESS (getAssociatedTokenAddress WSOL_MINT_KEY w)
            RESERVE_ADDRESS LENDING_MARKET w LENDING_PROGRAM_ID).data.tail).take 8 =
          (flashBorrowReserveLiquidityInstruction (v1WsolInLamports env t s d)
            SUPPLYPUBKEY (getAssociatedTokenAddress WSOL_MINT_KEY w)
            RESERVE_ADDRESS LENDING_MARKET LENDING_PROGRAM_ID).data.tail ∧
        out.borrowedAmount = v1WsolInLamports env t s d) ∧
    (∀ (env : BuildEnv) (t : PubKey) (d : ℚ) (s : Nat) (u : List Instruction)
        (w : PubKey),
      (v2Quote env t s d).routePlan.length ≤ 1 →
      env.compileError = none →
      ∃ out, buildSimulatedFlashLoanInstructionsV2 env t d s u w = .ok out ∧
        out.transaction.instructions[3]? =
          some (flashBorrowReserveLiquidityInstruction (d * 1000000000)
            SUPPLYPUBKEY (getAssociatedTokenAddress WSOL_MINT_KEY w)
            RESERVE_ADDRESS LENDING_MARKET LENDING_PROGRAM_ID) ∧
        out.transaction.instructions.dropLast.getLast? =
          some (flashRepayReserveLiquidityInstruction (d * 1000000000)
            3 (getAssociatedTokenAddress WSOL_MINT_KEY w) SUPPLYPUBKEY
            FEE_RECEIVER_ADDRESS (getAssociatedTokenAddress WSOL_MINT_KEY w)
            RESERVE_ADDRESS LENDING_MARKET w LENDING_PROGRAM_ID) ∧
        ((flashRepayReserveLiquidityInstruction (d * 1000000000)
            3 (getAssociatedTokenAddress WSOL_MINT_KEY w) SUPPLYPUBKEY
            FEE_RECEIVER_ADDRESS (getAssociatedTokenAddress WSOL_MINT_KEY w)
            RESERVE_ADDRESS LENDING_MARKET w LENDING_PROGRAM_ID).data.tail).take 8 =
          (flashBorrowReserveLiquidityInstruction (d * 1000000000)
            SUPPLYPUBKEY (getAssociatedTokenAddress WSOL_MINT_KEY w)
            RESERVE_ADDRESS LENDING_MARKET LENDING_PROGRAM_ID).data.tail ∧
        out.borrowedAmount = d * 1000000000) := by
  constructor
  · intro env t d s u w h1 h2 h3
    refine ⟨v1Result env t d s u w, ?_, ?_, ?_, ?_, ?_⟩
    · rw [buildSimulatedFlashLoanInstructions_eq env t d s u w h1 h2, h3]
    · rfl
    · exact dropLast_getLast_of_append_pair _ _ _
    · rw [flashRepay_amount_bytes, flashBorrow_data_tail]
    · rfl
  · intro env t d s u w h1 h3
    refine ⟨v2Result env t d s u w, ?_, ?_, ?_, ?_, ?_⟩
    · rw [buildSimulatedFlashLoanInstructionsV2_eq env t d s u w h1, h3]
    · rfl
    · exact dropLast_getLast_of_append_pair _ _ _
    · rw [flashRepay_amount_bytes, flashBorrow_data_tail]
    · rfl

/-- Witness for C2 at the demo environment. -/
theorem c2_witness :
    (v1RefQuote demoEnv demoTarget 100).routePlan.length ≤ 1 ∧
    (v1SwapQuote demoEnv demoTarget 100 1000000).routePlan.length ≤ 1 ∧
    demoEnv.compileError = none ∧
    (v2Quote demoEnv demoTarget 100 1000000).routePlan.length ≤ 1 ∧
    (∃ out, buildSimulatedFlashLoanInstructions demoEnv demoTarget 1000000 100
        [] demoWallet = .ok out ∧
      out.transaction.instructions[3]? =
        some (flashBorrowReserveLiquidityInstruction
          (v1WsolInLamports demoEnv demoTarget 100 1000000) SUPPLYPUBKEY
          (getAssociatedTokenAddress WSOL_MINT_KEY demoWallet) RESERVE_ADDRESS
          LENDING_MARKET LENDING_PROGRAM_ID) ∧
      out.transaction.instructions.dropLast.getLast? =
        some (flashRepayReserveLiquidityInstruction
          (v1WsolInLamports demoEnv demoTarget 100 1000000) 3
          (getAssociatedTokenAddress WSOL_MINT_KEY demoWallet) SUPPLYPUBKEY
          FEE_RECEIVER_ADDRESS (getAssociatedTokenAddress WSOL_MINT_KEY demoWallet)
          RESERVE_ADDRESS LENDING_MARKET demoWallet LENDING_PROGRAM_ID) ∧
      ((flashRepayReserveLiquidityInstruction
          (v1WsolInLamports demoEnv demoTarget 100 1000000) 3
          (getAssociatedTokenAddress WSOL_MINT_KEY demoWallet) SUPPLYPUBKEY
          FEE_RECEIVER_ADDRESS (getAssociatedTokenAddress WSOL_MINT_KEY demoWallet)
          RESERVE_ADDRESS LENDING_MARKET demoWallet LENDING_PROGRAM_ID).data.tail).take 8 =
        (flashBorrowReserveLiquidityInstruction
          (v1WsolInLamports demoEnv demoTarget 100 1000000) SUPPLYPUBKEY
          (getAssociatedTokenAddress WSOL_MINT_KEY demoWallet) RESERVE_ADDRESS
          LENDING_MARKET LENDING_PROGRAM_ID).data.tail ∧
      out.borrowedAmount = v1WsolInLamports demoEnv demoTarget 100 1000000) ∧
    (∃ out, buildSimulatedFlashLoanInstructionsV2 demoEnv demoTarget 1000000 100
        [] demoWallet = .ok out ∧
      out.transaction.instructions[3]? =
        some (flashBorrowReserveLiquidityInstruction ((1000000 : ℚ) * 1000000000)
          SUPPLYPUBKEY (getAssociatedTokenAddress WSOL_MINT_KEY demoWallet)
          RESERVE_ADDRESS LENDING_MARKET LENDING_PROGRAM_ID) ∧
      out.transaction.instructions.dropLast.getLast? =
        some (flashRepayReserveLiquidityInstruction ((1000000 : ℚ) * 1000000000) 3
          (getAssociatedTokenAddress WSOL_MINT_KEY demoWallet) SUPPLYPUBKEY
          FEE_RECEIVER_ADDRESS (getAssociatedTokenAddress WSOL_MINT_KEY demoWallet)
          RESERVE_ADDRESS LENDING_MARKET demoWallet LENDING_PROGRAM_ID) ∧
      ((flashRepayReserveLiquidityInstruction ((1000000 : ℚ) * 1000000000) 3
          (getAssociatedTokenAddress WSOL_MINT_KEY demoWallet) SUPPLYPUBKEY
          FEE_RECEIVER_ADDRESS (getAssociatedTokenAddress WSOL_MINT_KEY demoWallet)
          RESERVE_ADDRESS LENDING_MARKET demoWallet LENDING_PROGRAM_ID).data.tail).take 8 =
        (flashBorrowReserveLiquidityInstruction ((1000000 : ℚ) * 1000000000)
          SUPPLYPUBKEY (getAssociatedTokenAddress WSOL_MINT_KEY demoWallet)
          RESERVE_ADDRESS LENDING_MARKET LENDING_PROGRAM_ID).data.tail ∧
      out.borrowedAmount = (1000000 : ℚ) * 1000000000) :=
  ⟨by decide, by decide, rfl, by decide,
   c2_repay_equals_borrow.1 demoEnv demoTarget 1000000 100 [] demoWallet
     (by decide) (by decide) rfl,
   c2_repay_equals_borrow.2 demoEnv demoTarget 1000000 100 [] demoWallet
     (by decide) rfl⟩

/-! ### C3 -/

/-- A close-account instruction (token program, payload byte 9) whose first
account reference (the account being closed) is the escrow. -/
def isCloseTargeting (escrow : PubKey) (ix : Instruction) : Bool :=
  (ix.programId == TOKEN_PROGRAM_ID && ix.data.head? == some 9) &&
    ix.keys.head?.map (fun k => k.pubkey) == some escrow

/-- The property claimed for every produced list: no close instruction for
the escrow occurs before the repay instruction (the second-to-last
position). -/
def noEscrowCloseBeforeRepay (escrow : PubKey) (out : BuildOutput) : Bool :=
  (out.transaction.instructions.take
      (out.transaction.instructions.length - 2)).all
    fun ix => !(isCloseTargeting escrow ix)

/-- Counterexample for C3: when the caller-supplied instructions contain a
close-account instruction for the escrow, the assembled list carries it
before the repay instruction — the claimed property evaluates to false on a
produced list. -/
theorem c3_counterexample :
    (buildSimulatedFlashLoanInstructions demoEnv demoTarget 1000000 100
        [createCloseAccountInstruction demoEscrow demoWallet demoWallet]
        demoWallet).map (noEscrowCloseBeforeRepay demoEscrow) = .ok false := by
  decide

lemma jupiterFiltered_not_close (raw : List Instruction) :
    ∀ ix ∈ jupiterFilteredInstructions raw,
      (ix.programId == TOKEN_PROGRAM_ID && ix.data.head? == some 9) = false := by
  intro ix hix
  have h := (List.mem_filter.mp hix).2
  cases hb : (ix.programId == TOKEN_PROGRAM_ID && ix.data.head? == some 9)
  · rfl
  · simp only [hb, Bool.not_true] at h
    exact absurd h (by decide)

lemma rewriteTransferIx_programId (up esc : PubKey) (ix : Instruction) :
    (rewriteTransferIx up esc ix).programId = ix.programId := by
  unfold rewriteTransferIx
  split <;> rfl

lemma rewriteTransferIx_data (up esc : PubKey) (ix : Instruction) :
    (rewriteTransferIx up esc ix).data = ix.data := by
  unfold rewriteTransferIx
  split <;> rfl

lemma isCloseTargeting_false (escrow : PubKey) (ix : Instruction)
    (h : (ix.programId == TOKEN_PROGRAM_ID && ix.data.head? == some 9) = false) :
    isCloseTargeting escrow ix = false := by
  unfold isCloseTargeting
  rw [h, Bool.false_and]

lemma createFlashLoanIx_all_not_close (esc tok w : PubKey) (amt : ℚ) :
    (createFlashLoanIx tok w amt).all
      (fun ix => !(isCloseTargeting esc ix)) = true := rfl

lemma computeBudgetPair_all_not_close (esc : PubKey) (n m : Nat) :
    ([setComputeUnitLimit n, setComputeUnitPrice m]).all
      (fun ix => !(isCloseTargeting esc ix)) = true := rfl

lemma jupiterFiltered_all_not_close (raw : List Instruction) (esc : PubKey) :
    (jupiterFilteredInstructions raw).all
      (fun ix => !(isCloseTargeting esc ix)) = true := by
  rw [List.all_eq_true]
  intro ix hix
  rw [isCloseTargeting_false esc ix (jupiterFiltered_not_close raw ix hix)]
  rfl

lemma jupiterFilteredMapped_all_not_close (raw : List Instruction)
    (up wsolTokenAccount esc : PubKey) :
    ((jupiterFilteredInstructions raw).map
        (rewriteTransferIx up wsolTokenAccount)).all
      (fun ix => !(isCloseTargeting esc ix)) = true := by
  rw [List.all_eq_true]
  intro ix2 hix2
  rcases List.mem_map.mp hix2 with ⟨ix, hix, rfl⟩
  have h2 : ((rewriteTransferIx up wsolTokenAccount ix).programId ==
      TOKEN_PROGRAM_ID &&
      (rewriteTransferIx up wsolTokenAccount ix).data.head? == some 9) = false := by
    rw [rewriteTransferIx_programId, rewriteTransferIx_data]
    exact jupiterFiltered_not_close raw ix hix
  rw [isCloseTargeting_false esc _ h2]
  rfl

lemma take_all_of_append_pair {α : Type} (B : List α) (r c : α) (p : α → Bool)
    (h : B.all p = true) :
    ((B ++ [r, c]).take ((B ++ [r, c]).length - 2)).all p = true := by
  have hlen : (B ++ [r, c]).length - 2 = B.length := by simp
  rw [hlen, List.take_left]
  exact h

/-- C3 as amended.  For every build whose caller-supplied instructions
contain no close-account instruction for the escrow, no escrow close
appears before the repay instruction; the swap-service close instructions
are always filtered out (for arbitrary swap-service instruction lists); and
the escrow close is unconditionally the final instruction of every
produced list. -/
theorem c3_escrow_close_ordering :
    (∀ (env : BuildEnv) (t : PubKey) (d : ℚ) (s : Nat) (u : List Instruction)
        (w : PubKey),
      (v1RefQuote env t s).routePlan.length ≤ 1 →
      (v1SwapQuote env t s d).routePlan.length ≤ 1 →
      env.compileError = none →
      (u.all fun ix =>
        !(isCloseTargeting (getAssociatedTokenAddress WSOL_MINT_KEY w) ix)) = true →
      ∃ out, buildSimulatedFlashLoanInstructions env t d s u w = .ok out ∧
        noEscrowCloseBeforeRepay (getAssociatedTokenAddress WSOL_MINT_KEY w) out =
          true ∧
        out.transaction.instructions.getLast? =
          some (createCloseAccountInstruction
            (getAssociatedTokenAddress WSOL_MINT_KEY w) w w)) ∧
    (∀ (env : BuildEnv) (t : PubKey) (d : ℚ) (s : Nat) (u : List Instruction)
        (w : PubKey),
      (v2Quote env t s d).routePlan.length ≤ 1 →
      env.compileError = none →
      (u.all fun ix =>
        !(isCloseTargeting (getAssociatedTokenAddress WSOL_MINT_KEY w) ix)) = true →
      ∃ out, buildSimulatedFlashLoanInstructionsV2 env t d s u w = .ok out ∧
        noEscrowCloseBeforeRepay (getAssociatedTokenAddress WSOL_MINT_KEY w) out =
          true ∧
        out.transaction.instructions.getLast? =
          some (createCloseAccountInstruction
            (getAssociatedTokenAddress WSOL_MINT_KEY w) w w)) := by
  constructor
  · intro env t d s u w h1 h2 h3 hu
    refine ⟨v1Result env t d s u w, ?_, ?_, ?_⟩
    · rw [buildSimulatedFlashLoanInstructions_eq env t d s u w h1 h2, h3]
    · show ((v1AllInstructions env t d s u w).take
          ((v1AllInstructions env t d s u w).length - 2)).all _ = true
      simp only [v1AllInstructions]
      refine take_all_of_append_pair _ _ _ _ ?_
      simp only [List.all_append, createFlashLoanIx_all_not_close,
        computeBudgetPair_all_not_close, jupiterFiltered_all_not_close, hu,
        Bool.and_self]
    · exact getLast_of_append_pair _ _ _
  · intro env t d s u w h1 h3 hu
    refine ⟨v2Result env t d s u w, ?_, ?_, ?_⟩
    · rw [buildSimulatedFlashLoanInstructionsV2_eq env t d s u w h1, h3]
    · show ((v2AllInstructions env t d s u w).take
          ((v2AllInstructions env t d s u w).length - 2)).all _ = true
      simp only [v2AllInstructions]
      refine take_all_of_append_pair _ _ _ _ ?_
      simp only [List.all_append, createFlashLoanIx_all_not_close,
        computeBudgetPair_all_not_close, jupiterFilteredMapped_all_not_close, hu,
        Bool.and_self]
    · exact getLast_of_append_pair _ _ _

/-- Witness for the amended C3 at the demo environment (no caller-supplied
instructions). -/
theorem c3_witness :
    (v1RefQuote demoEnv demoTarget 100).routePlan.length ≤ 1 ∧
    (v1SwapQuote demoEnv demoTarget 100 1000000).routePlan.length ≤ 1 ∧
    demoEnv.compileError = none ∧
    (([] : List Instruction).all fun ix =>
      !(isCloseTargeting (getAssociatedTokenAddress WSOL_MINT_KEY demoWallet) ix)) =
      true ∧
    (v2Quote demoEnv demoTarget 100 1000000).routePlan.length ≤ 1 ∧
    (∃ out, buildSimulatedFlashLoanInstructions demoEnv demoTarget 1000000 100
        [] demoWallet = .ok out ∧
      noEscrowCloseBeforeRepay (getAssociatedTokenAddress WSOL_MINT_KEY demoWallet)
        out = true ∧
      out.transaction.instructions.getLast? =
        some (createCloseAccountInstruction
          (getAssociatedTokenAddress WSOL_MINT_KEY demoWallet) demoWallet
          demoWallet)) ∧
    (∃ out, buildSimulatedFlashLoanInstructionsV2 demoEnv demoTarget 1000000 100
        [] demoWallet = .ok out ∧
      noEscrowCloseBeforeRepay (getAssociatedTokenAddress WSOL_MINT_KEY demoWallet)
        out = true ∧
      out.transaction.instructions.getLast? =
        some (createCloseAccountInstruction
          (getAssociatedTokenAddress WSOL_MINT_KEY demoWallet) demoWallet
          demoWallet)) :=
  ⟨by decide, by decide, rfl, rfl, by decide,
   c3_escrow_close_ordering.1 demoEnv demoTarget 1000000 100 [] demoWallet
     (by decide) (by decide) rfl rfl,
   c3_escrow_close_ordering.2 demoEnv demoTarget 1000000 100 [] demoWallet
     (by decide) rfl rfl⟩

/-! ### C4 -/

/-- C4.  A quote response with more than one hop is rejected with the
multi-hop error; with at most one hop it passes this check unchanged; and
when any quote a builder fetches is multi-hop, the whole build call fails
with the multi-hop error and produces no transaction. -/
theorem c4_multi_hop_rejection :
    (∀ (fetchQuote : QuoteRequest → JupiterQuoteResponse) (req : QuoteRequest),
      (fetchQuote req).routePlan.length > 1 →
      getJupiterQuote fetchQuote req = .error .multiHopRouteRejected) ∧
    (∀ (fetchQuote : QuoteRequest → JupiterQuoteResponse) (req : QuoteRequest),
      (fetchQuote req).routePlan.length ≤ 1 →
      getJupiterQuote fetchQuote req = .ok (fetchQuote req)) ∧
    (∀ (env : BuildEnv) (t : PubKey) (d : ℚ) (s : Nat) (u : List Instruction)
        (w : PubKey),
      (v1RefQuote env t s).routePlan.length > 1 ∨
        (v1SwapQuote env t s d).routePlan.length > 1 →
      buildSimulatedFlashLoanInstructions env t d s u w =
        .error .multiHopRouteRejected) ∧
    (∀ (env : BuildEnv) (t : PubKey) (d : ℚ) (s : Nat) (u : List Instruction)
        (w : PubKey),
      (v2Quote env t s d).routePlan.length > 1 →
      buildSimulatedFlashLoanInstructionsV2 env t d s u w =
        .error .multiHopRouteRejected) := by
  refine ⟨?_, ?_, ?_, ?_⟩
  · intro fetchQuote req h
    exact getJupiterQuote_reject fetchQuote req h
  · intro fetchQuote req h
    exact getJupiterQuote_ok fetchQuote req h
  · intro env t d s u w h
    by_cases h1 : (v1RefQuote env t s).routePlan.length > 1
    · simp only [v1RefQuote] at h1
      simp only [buildSimulatedFlashLoanInstructions, estimateWSOLForTokenSwap,
        getJupiterQuote, if_pos h1]
    · have h2 := h.resolve_left h1
      simp only [v1RefQuote] at h1
      simp only [v1SwapQuote, v1WsolInLamports, v1RefQuote] at h2
      simp only [buildSimulatedFlashLoanInstructions, estimateWSOLForTokenSwap,
        getSwapInstructionsFromJupiter, getJupiterQuote, if_neg h1, if_pos h2]
  · intro env t d s u w h
    simp only [v2Quote, v2SwapAmount] at h
    simp only [buildSimulatedFlashLoanInstructionsV2, getJupiterQuote, if_pos h]

/-- Witness for C4: the multi-hop demo environment is rejected everywhere,
the direct-route demo quote passes. -/
theorem c4_witness :
    (demoMultiHopFetch ⟨WSOL_MINT_KEY, demoTarget, 1000000000, 100⟩).routePlan.length
        > 1 ∧
    (demoFetch ⟨WSOL_MINT_KEY, demoTarget, 1000000000, 100⟩).routePlan.length ≤ 1 ∧
    getJupiterQuote demoMultiHopFetch ⟨WSOL_MINT_KEY, demoTarget, 1000000000, 100⟩ =
      .error .multiHopRouteRejected ∧
    getJupiterQuote demoFetch ⟨WSOL_MINT_KEY, demoTarget, 1000000000, 100⟩ =
      .ok (demoFetch ⟨WSOL_MINT_KEY, demoTarget, 1000000000, 100⟩) ∧
    buildSimulatedFlashLoanInstructions demoMultiHopEnv demoTarget 1000000 100 []
      demoWallet = .error .multiHopRouteRejected ∧
    buildSimulatedFlashLoanInstructionsV2 demoMultiHopEnv demoTarget 1000000 100 []
      demoWallet = .error .multiHopRouteRejected :=
  ⟨by decide, by decide,
   c4_multi_hop_rejection.1 demoMultiHopFetch
     ⟨WSOL_MINT_KEY, demoTarget, 1000000000, 100⟩ (by decide),
   c4_multi_hop_rejection.2.1 demoFetch
     ⟨WSOL_MINT_KEY, demoTarget, 1000000000, 100⟩ (by decide),
   c4_multi_hop_rejection.2.2.1 demoMultiHopEnv demoTarget 1000000 100 []
     demoWallet (Or.inl (by decide)),
   c4_multi_hop_rejection.2.2.2 demoMultiHopEnv demoTarget 1000000 100 []
     demoWallet (by decide)⟩

/-! ### C5 -/

/-- C5.  The amount estimator requests one reference quote for 1e9 smallest
units (one SOL) of the liquid asset, takes the quoted output as the rate,
and returns floor((desired / rate) * 1e9) lamports; at desired output
1000000 and rate 500 this is 2000 SOL, i.e. 2000000000000 lamports. -/
theorem c5_amount_estimator_linear :
    (∀ (fetchQuote : QuoteRequest → JupiterQuoteResponse) (targetToken : PubKey)
        (slippageBps : Nat) (desiredTargetAmount : ℚ),
      (fetchQuote
        ⟨WSOL_MINT_KEY, targetToken, 1000000000, slippageBps⟩).routePlan.length ≤ 1 →
      (fetchQuote ⟨WSOL_MINT_KEY, targetToken, 1000000000, slippageBps⟩).outAmount ≠
        0 →
      estimateWSOLForTokenSwap fetchQuote targetToken slippageBps
          desiredTargetAmount =
        .ok ⟨desiredTargetAmount /
              (fetchQuote
                ⟨WSOL_MINT_KEY, targetToken, 1000000000, slippageBps⟩).outAmount,
             ((⌊desiredTargetAmount /
                  (fetchQuote
                    ⟨WSOL_MINT_KEY, targetToken, 1000000000, slippageBps⟩).outAmount
                * 1000000000⌋ : ℤ) : ℚ),
             (fetchQuote
               ⟨WSOL_MINT_KEY, targetToken, 1000000000, slippageBps⟩).outAmount,
             fetchQuote ⟨WSOL_MINT_KEY, targetToken, 1000000000, slippageBps⟩⟩) ∧
    estimateWSOLForTokenSwap demoFetch demoTarget 100 1000000 =
      .ok ⟨2000, 2000000000000, 500, demoQuote⟩ := by
  constructor
  · intro fetchQuote targetToken slippageBps desiredTargetAmount h hrate
    exact estimateWSOLForTokenSwap_ok fetchQuote targetToken slippageBps
      desiredTargetAmount h
  · rw [estimateWSOLForTokenSwap_ok demoFetch demoTarget 100 1000000 (by decide)]
    simp only [demoFetch, demoQuote, Except.ok.injEq, EstimateResult.mk.injEq]
    norm_num

/-- Witness for C5 at the demo quote service (rate 500 per SOL). -/
theorem c5_witness :
    (demoFetch
      ⟨WSOL_MINT_KEY, demoTarget, 1000000000, 100⟩).routePlan.length ≤ 1 ∧
    (demoFetch ⟨WSOL_MINT_KEY, demoTarget, 1000000000, 100⟩).outAmount ≠ 0 ∧
    estimateWSOLForTokenSwap demoFetch demoTarget 100 1000000 =
      .ok ⟨(1000000 : ℚ) /
            (demoFetch ⟨WSOL_MINT_KEY, demoTarget, 1000000000, 100⟩).outAmount,
           ((⌊(1000000 : ℚ) /
                (demoFetch ⟨WSOL_MINT_KEY, demoTarget, 1000000000, 100⟩).outAmount
              * 1000000000⌋ : ℤ) : ℚ),
           (demoFetch ⟨WSOL_MINT_KEY, demoTarget, 1000000000, 100⟩).outAmount,
           demoFetch ⟨WSOL_MINT_KEY, demoTarget, 1000000000, 100⟩⟩ :=
  ⟨by decide, by norm_num [demoFetch, demoQuote],
   c5_amount_estimator_linear.1 demoFetch demoTarget 100 1000000 (by decide)
     (by norm_num [demoFetch, demoQuote])⟩

/-! ### C6 -/

/-- C6.  In the second adapter, every swap-service token transfer
instruction (payload byte 3) survives the filters, and in its account list
every reference to the caller wallet with the signer flag set is rewritten
to the escrow (WSOL token) account with the signer flag cleared; program id
and payload are unchanged. -/
theorem c6_transfer_account_rewrite :
    ∀ (fetchQuote : QuoteRequest → JupiterQuoteResponse)
      (raw : List Instruction) (inputMint outputMint : PubKey) (amount : ℚ)
      (slippageBps : Nat) (userPublicKey wsolTokenAccount : PubKey)
      (res : SwapResult),
      getSwapInstructionsFromJupiterV2 fetchQuote raw inputMint outputMint
        amount slippageBps userPublicKey wsolTokenAccount = .ok res →
      ∀ ix ∈ raw, ix.programId = TOKEN_PROGRAM_ID → ix.data.head? = some 3 →
      ∃ ix2 ∈ res.instructions,
        ix2.programId = ix.programId ∧ ix2.data = ix.data ∧
        ix2.keys = ix.keys.map fun key =>
          if key.pubkey == userPublicKey && key.isSigner then
            { key with pubkey := wsolTokenAccount, isSigner := false }
          else key := by
  intro fetchQuote raw inputMint outputMint amount slippageBps userPublicKey
    wsolTokenAccount res hres ix hraw hprog hdata
  rcases getJupiterQuote_cases fetchQuote ⟨inputMint, outputMint, amount, slippageBps⟩
    with hq | hq
  · have hok : getSwapInstructionsFromJupiterV2 fetchQuote raw inputMint outputMint
        amount slippageBps userPublicKey wsolTokenAccount =
        .ok ⟨(jupiterFilteredInstructions raw).map
               (rewriteTransferIx userPublicKey wsolTokenAccount), [],
             fetchQuote ⟨inputMint, outputMint, amount, slippageBps⟩⟩ := by
      unfold getSwapInstructionsFromJupiterV2
      rw [hq]
      rfl
    rw [hok] at hres
    simp only [Except.ok.injEq] at hres
    subst hres
    have hmem : ix ∈ jupiterFilteredInstructions raw := by
      unfold jupiterFilteredInstructions
      refine List.mem_filter.mpr ⟨List.mem_filter.mpr ⟨hraw, ?_⟩, ?_⟩
      · rw [hprog]; rfl
      · rw [hprog, hdata]; rfl
    have hcond : (ix.programId == TOKEN_PROGRAM_ID &&
        ix.data.head? == some 3) = true := by
      rw [hprog, hdata]; rfl
    refine ⟨rewriteTransferIx userPublicKey wsolTokenAccount ix,
      List.mem_map_of_mem _ hmem,
      rewriteTransferIx_programId _ _ _, rewriteTransferIx_data _ _ _, ?_⟩
    unfold rewriteTransferIx
    rw [if_pos hcond]
  · have herr : getSwapInstructionsFromJupiterV2 fetchQuote raw inputMint outputMint
        amount slippageBps userPublicKey wsolTokenAccount =
        .error .multiHopRouteRejected := by
      unfold getSwapInstructionsFromJupiterV2
      rw [hq]
    rw [herr] at hres
    exact Except.noConfusion hres

/-- A swap-service token transfer instruction drawing from the demo user
wallet (third key, the signing owner). -/
def demoTransferIx : Instruction :=
  ⟨TOKEN_PROGRAM_ID,
   [⟨500, false, true⟩, ⟨501, false, true⟩, ⟨demoWallet, true, false⟩],
   [3, 7, 0, 0, 0, 0, 0, 0, 0]⟩

/-- The same transfer after the adapter rewrite: the wallet-signer key has
become the escrow key, non-signer. -/
def demoRewrittenTransferIx : Instruction :=
  ⟨TOKEN_PROGRAM_ID,
   [⟨500, false, true⟩, ⟨501, false, true⟩, ⟨demoEscrow, false, false⟩],
   [3, 7, 0, 0, 0, 0, 0, 0, 0]⟩

/-- The adapter result on the demo transfer instruction. -/
def demoSwapResult : SwapResult := ⟨[demoRewrittenTransferIx], [], demoQuote⟩

/-- Witness for C6 on the demo transfer instruction. -/
theorem c6_witness :
    getSwapInstructionsFromJupiterV2 demoFetch [demoTransferIx] WSOL_MINT_KEY
      demoTarget 1 100 demoWallet demoEscrow = .ok demoSwapResult ∧
    demoTransferIx ∈ [demoTransferIx] ∧
    demoTransferIx.programId = TOKEN_PROGRAM_ID ∧
    demoTransferIx.data.head? = some 3 ∧
    ∃ ix2 ∈ demoSwapResult.instructions,
      ix2.programId = demoTransferIx.programId ∧
      ix2.data = demoTransferIx.data ∧
      ix2.keys = demoTransferIx.keys.map fun key =>
        if key.pubkey == demoWallet && key.isSigner then
          { key with pubkey := demoEscrow, isSigner := false }
        else key :=
  ⟨by decide, by decide, rfl, rfl,
   c6_transfer_account_rewrite demoFetch [demoTransferIx] WSOL_MINT_KEY demoTarget
     1 100 demoWallet demoEscrow demoSwapResult (by decide) demoTransferIx
     (by decide) rfl rfl⟩

/-! ### C7 -/

/-- Counterexample for C7: in the first builder a compile failure that
signals an oversized transaction is propagated as a generic build error
carrying the raw message, not as the distinct transaction-too-large
error. -/
theorem c7_counterexample :
    buildSimulatedFlashLoanInstructions demoTooLargeEnv demoTarget 1000000 100 []
      demoWallet = .error (.buildFailed "Transaction too large: 1300 > 1232") := by
  decide

/-- C7 as amended.  When the compile step fails, the first builder
propagates the failure as a generic build error with the original message;
the second builder maps a failure whose message contains "too large" to the
distinct transaction-too-large error and propagates any other compile
failure generically.  In every case the build returns an error, never a
malformed envelope. -/
theorem c7_too_large_mapping :
    (∀ (env : BuildEnv) (t : PubKey) (d : ℚ) (s : Nat) (u : List Instruction)
        (w : PubKey) (msg : String),
      (v1RefQuote env t s).routePlan.length ≤ 1 →
      (v1SwapQuote env t s d).routePlan.length ≤ 1 →
      env.compileError = some msg →
      buildSimulatedFlashLoanInstructions env t d s u w =
        .error (.buildFailed msg)) ∧
    (∀ (env : BuildEnv) (t : PubKey) (d : ℚ) (s : Nat) (u : List Instruction)
        (w : PubKey) (msg : String),
      (v2Quote env t s d).routePlan.length ≤ 1 →
      env.compileError = some msg →
      stringIncludes msg "too large" = true →
      buildSimulatedFlashLoanInstructionsV2 env t d s u w =
        .error .transactionTooLarge) ∧
    (∀ (env : BuildEnv) (t : PubKey) (d : ℚ) (s : Nat) (u : List Instruction)
        (w : PubKey) (msg : String),
      (v2Quote env t s d).routePlan.length ≤ 1 →
      env.compileError = some msg →
      stringIncludes msg "too large" = false →
      buildSimulatedFlashLoanInstructionsV2 env t d s u w =
        .error (.buildFailed msg)) := by
  refine ⟨?_, ?_, ?_⟩
  · intro env t d s u w msg h1 h2 hmsg
    rw [buildSimulatedFlashLoanInstructions_eq env t d s u w h1 h2, hmsg]
  · intro env t d s u w msg h1 hmsg hinc
    rw [buildSimulatedFlashLoanInstructionsV2_eq env t d s u w h1, hmsg]
    simp [hinc]
  · intro env t d s u w msg h1 hmsg hinc
    rw [buildSimulatedFlashLoanInstructionsV2_eq env t d s u w h1, hmsg]
    simp [hinc]

/-- Environment where the compile step throws a failure unrelated to size. -/
def demoCompileFailEnv : BuildEnv :=
  ⟨demoFetch, [], 1234, some "Max static account keys length exceeded"⟩

/-- Witness for the amended C7 on the demo environments. -/
theorem c7_witness :
    (v1RefQuote demoTooLargeEnv demoTarget 100).routePlan.length ≤ 1 ∧
    (v1SwapQuote demoTooLargeEnv demoTarget 100 1000000).routePlan.length ≤ 1 ∧
    demoTooLargeEnv.compileError = some "Transaction too large: 1300 > 1232" ∧
    (v2Quote demoTooLargeEnv demoTarget 100 1000000).routePlan.length ≤ 1 ∧
    stringIncludes "Transaction too large: 1300 > 1232" "too large" = true ∧
    stringIncludes "Max static account keys length exceeded" "too large" = false ∧
    buildSimulatedFlashLoanInstructions demoTooLargeEnv demoTarget 1000000 100 []
      demoWallet = .error (.buildFailed "Transaction too large: 1300 > 1232") ∧
    buildSimulatedFlashLoanInstructionsV2 demoTooLargeEnv demoTarget 1000000 100 []
      demoWallet = .error .transactionTooLarge ∧
    buildSimulatedFlashLoanInstructionsV2 demoCompileFailEnv demoTarget 1000000 100
      [] demoWallet =
      .error (.buildFailed "Max static account keys length exceeded") :=
  ⟨by decide, by decide, rfl, by decide, by decide, by decide,
   c7_too_large_mapping.1 demoTooLargeEnv demoTarget 1000000 100 [] demoWallet
     "Transaction too large: 1300 > 1232" (by decide) (by decide) rfl,
   c7_too_large_mapping.2.1 demoTooLargeEnv demoTarget 1000000 100 [] demoWallet
     "Transaction too large: 1300 > 1232" (by decide) rfl (by decide),
   c7_too_large_mapping.2.2 demoCompileFailEnv demoTarget 1000000 100 [] demoWallet
     "Max static account keys length exceeded" (by decide) rfl (by decide)⟩

/-! ### C8 -/

/-- Whether an instruction belongs to the compute budget program. -/
def isComputeBudgetIx (ix : Instruction) : Bool :=
  ix.programId == COMPUTE_BUDGET_PROGRAM_ID

/-- Number of compute-budget instructions in a list. -/
def countComputeBudgetIxs (instrs : List Instruction) : Nat :=
  instrs.countP isComputeBudgetIx

/-- Counterexample for C8: a build whose caller-supplied instructions carry
a compute-budget instruction produces a list with three compute-budget
instructions, not exactly two. -/
theorem c8_counterexample :
    (buildSimulatedFlashLoanInstructions demoEnv demoTarget 1000000 100
        [setComputeUnitLimit 123] demoWallet).map
      (fun out => countComputeBudgetIxs out.transaction.instructions) =
      .ok 3 := by
  decide

lemma jupiterFiltered_not_cb (raw : List Instruction) :
    ∀ ix ∈ jupiterFilteredInstructions raw, isComputeBudgetIx ix = false := by
  intro ix hix
  have h := (List.mem_filter.mp (List.mem_of_mem_filter hix)).2
  cases hb : isComputeBudgetIx ix
  · rfl
  · have hb2 : (ix.programId == COMPUTE_BUDGET_PROGRAM_ID) = true := hb
    simp only [hb2, Bool.not_true] at h
    exact absurd h (by decide)

lemma jupiterFiltered_countP_cb (raw : List Instruction) :
    (jupiterFilteredInstructions raw).countP isComputeBudgetIx = 0 := by
  rw [List.countP_eq_zero]
  intro ix hix
  simp [jupiterFiltered_not_cb raw ix hix]

lemma jupiterFilteredMapped_countP_cb (raw : List Instruction)
    (up esc : PubKey) :
    ((jupiterFilteredInstructions raw).map
      (rewriteTransferIx up esc)).countP isComputeBudgetIx = 0 := by
  rw [List.countP_eq_zero]
  intro ix2 hix2
  rcases List.mem_map.mp hix2 with ⟨ix, hix, rfl⟩
  have h := jupiterFiltered_not_cb raw ix hix
  simp only [isComputeBudgetIx, rewriteTransferIx_programId] at *
  simp [h]

lemma createFlashLoanIx_countP_cb (tok w : PubKey) (amt : ℚ) :
    (createFlashLoanIx tok w amt).countP isComputeBudgetIx = 0 := rfl

lemma computeBudgetPair_countP_cb (n m : Nat) :
    ([setComputeUnitLimit n, setComputeUnitPrice m]).countP isComputeBudgetIx =
      2 := rfl

lemma repayClosePair_countP_cb (amt : ℚ) (idx : Nat)
    (a b c e f g i tok w : PubKey) :
    ([flashRepayReserveLiquidityInstruction amt idx a b c e f g i
        LENDING_PROGRAM_ID,
      createCloseAccountInstruction tok w w]).countP isComputeBudgetIx = 0 := rfl

/-- C8 as amended.  Both adapters remove every compute-budget instruction
the swap service injected; both builders place their own compute-unit-limit
and compute-unit-price instructions at indices 4 and 5, immediately after
the borrow instruction; and when the caller-supplied instructions contain
no compute-budget instruction, these two are the only compute-budget
instructions in the assembled list. -/
theorem c8_compute_budget_placement :
    (∀ (fetchQuote : QuoteRequest → JupiterQuoteResponse) (raw : List Instruction)
        (i o : PubKey) (a : ℚ) (s : Nat) (up : PubKey) (res : SwapResult),
      getSwapInstructionsFromJupiter fetchQuote raw i o a s up = .ok res →
      countComputeBudgetIxs res.instructions = 0) ∧
    (∀ (fetchQuote : QuoteRequest → JupiterQuoteResponse) (raw : List Instruction)
        (i o : PubKey) (a : ℚ) (s : Nat) (up esc : PubKey) (res : SwapResult),
      getSwapInstructionsFromJupiterV2 fetchQuote raw i o a s up esc = .ok res →
      countComputeBudgetIxs res.instructions = 0) ∧
    (∀ (env : BuildEnv) (t : PubKey) (d : ℚ) (s : Nat) (u : List Instruction)
        (w : PubKey),
      (v1RefQuote env t s).routePlan.length ≤ 1 →
      (v1SwapQuote env t s d).routePlan.length ≤ 1 →
      env.compileError = none →
      countComputeBudgetIxs u = 0 →
      ∃ out, buildSimulatedFlashLoanInstructions env t d s u w = .ok out ∧
        out.transaction.instructions.get? 4 = some (setComputeUnitLimit 2000000) ∧
        out.transaction.instructions.get? 5 = some (setComputeUnitPrice 1000) ∧
        countComputeBudgetIxs out.transaction.instructions = 2) ∧
    (∀ (env : BuildEnv) (t : PubKey) (d : ℚ) (s : Nat) (u : List Instruction)
        (w : PubKey),
      (v2Quote env t s d).routePlan.length ≤ 1 →
      env.compileError = none →
      countComputeBudgetIxs u = 0 →
      ∃ out, buildSimulatedFlashLoanInstructionsV2 env t d s u w = .ok out ∧
        out.transaction.instructions.get? 4 = some (setComputeUnitLimit 1400000) ∧
        out.transaction.instructions.get? 5 = some (setComputeUnitPrice 500) ∧
        countComputeBudgetIxs out.transaction.instructions = 2) := by
  refine ⟨?_, ?_, ?_, ?_⟩
  · intro fetchQuote raw i o a s up res hres
    rcases getJupiterQuote_cases fetchQuote ⟨i, o, a, s⟩ with hq | hq
    · have hok : getSwapInstructionsFromJupiter fetchQuote raw i o a s up =
          .ok ⟨jupiterFilteredInstructions raw, [], fetchQuote ⟨i, o, a, s⟩⟩ := by
        unfold getSwapInstructionsFromJupiter
        rw [hq]
        rfl
      rw [hok] at hres
      simp only [Except.ok.injEq] at hres
      subst hres
      exact jupiterFiltered_countP_cb raw
    · have herr : getSwapInstructionsFromJupiter fetchQuote raw i o a s up =
          .error .multiHopRouteRejected := by
        unfold getSwapInstructionsFromJupiter
        rw [hq]
      rw [herr] at hres
      exact Except.noConfusion hres
  · intro fetchQuote raw i o a s up esc res hres
    rcases getJupiterQuote_cases fetchQuote ⟨i, o, a, s⟩ with hq | hq
    · have hok : getSwapInstructionsFromJupiterV2 fetchQuote raw i o a s up esc =
          .ok ⟨(jupiterFilteredInstructions raw).map (rewriteTransferIx up esc),
               [], fetchQuote ⟨i, o, a, s⟩⟩ := by
        unfold getSwapInstructionsFromJupiterV2
        rw [hq]
        rfl
      rw [hok] at hres
      simp only [Except.ok.injEq] at hres
      subst hres
      exact jupiterFilteredMapped_countP_cb raw up esc
    · have herr : getSwapInstructionsFromJupiterV2 fetchQuote raw i o a s up esc =
          .error .multiHopRouteRejected := by
        unfold getSwapInstructionsFromJupiterV2
        rw [hq]
      rw [herr] at hres
      exact Except.noConfusion hres
  · intro env t d s u w h1 h2 h3 hu
    refine ⟨v1Result env t d s u w, ?_, ?_, ?_, ?_⟩
    · rw [buildSimulatedFlashLoanInstructions_eq env t d s u w h1 h2, h3]
    · rfl
    · rfl
    · show countComputeBudgetIxs (v1AllInstructions env t d s u w) = 2
      simp only [countComputeBudgetIxs] at hu
      simp only [countComputeBudgetIxs, v1AllInstructions, List.countP_append,
        createFlashLoanIx_countP_cb, computeBudgetPair_countP_cb,
        jupiterFiltered_countP_cb, repayClosePair_countP_cb, hu]
  · intro env t d s u w h1 h3 hu
    refine ⟨v2Result env t d s u w, ?_, ?_, ?_, ?_⟩
    · rw [buildSimulatedFlashLoanInstructionsV2_eq env t d s u w h1, h3]
    · rfl
    · rfl
    · show countComputeBudgetIxs (v2AllInstructions env t d s u w) = 2
      simp only [countComputeBudgetIxs] at hu
      simp only [countComputeBudgetIxs, v2AllInstructions, List.countP_append,
        createFlashLoanIx_countP_cb, computeBudgetPair_countP_cb,
        jupiterFilteredMapped_countP_cb, repayClosePair_countP_cb, hu]

/-- Witness for the amended C8: both adapters drop a service-injected
compute-budget instruction, and both builders on the demo environment (no
caller-supplied instructions) place exactly two compute-budget
instructions, at indices 4 and 5. -/
theorem c8_witness :
    countComputeBudgetIxs
      ((⟨[], [], demoQuote⟩ : SwapResult)).instructions = 0 ∧
    countComputeBudgetIxs demoSwapResult.instructions = 0 ∧
    (v1RefQuote demoEnv demoTarget 100).routePlan.length ≤ 1 ∧
    (v1SwapQuote demoEnv demoTarget 100 1000000).routePlan.length ≤ 1 ∧
    (v2Quote demoEnv demoTarget 100 1000000).routePlan.length ≤ 1 ∧
    countComputeBudgetIxs ([] : List Instruction) = 0 ∧
    (∃ out, buildSimulatedFlashLoanInstructions demoEnv demoTarget 1000000 100
        [] demoWallet = .ok out ∧
      out.transaction.instructions.get? 4 = some (setComputeUnitLimit 2000000) ∧
      out.transaction.instructions.get? 5 = some (setComputeUnitPrice 1000) ∧
      countComputeBudgetIxs out.transaction.instructions = 2) ∧
    (∃ out, buildSimulatedFlashLoanInstructionsV2 demoEnv demoTarget 1000000 100
        [] demoWallet = .ok out ∧
      out.transaction.instructions.get? 4 = some (setComputeUnitLimit 1400000) ∧
      out.transaction.instructions.get? 5 = some (setComputeUnitPrice 500) ∧
      countComputeBudgetIxs out.transaction.instructions = 2) :=
  ⟨c8_compute_budget_placement.1 demoFetch [setComputeUnitLimit 7] WSOL_MINT_KEY
     demoTarget 1 100 demoWallet ⟨[], [], demoQuote⟩ (by decide),
   c8_compute_budget_placement.2.1 demoFetch [demoTransferIx, setComputeUnitLimit 7]
     WSOL_MINT_KEY demoTarget 1 100 demoWallet demoEscrow demoSwapResult
     (by decide),
   by decide, by decide, by decide, rfl,
   c8_compute_budget_placement.2.2.1 demoEnv demoTarget 1000000 100 [] demoWallet
     (by decide) (by decide) rfl rfl,
   c8_compute_budget_placement.2.2.2 demoEnv demoTarget 1000000 100 [] demoWallet
     (by decide) rfl rfl⟩

/-! ### C9 -/

/-- Whether an adapter result carries an empty lookup-table list (errors
count as trivially empty). -/
def returnsEmptyLookupTables : Except BuildError SwapResult → Bool
  | .ok res => res.lookupTableAccounts.isEmpty
  | .error _ => true

/-- Whether a build result is the no-valid-lookup-tables failure. -/
def failsWithNoValidLookupTables : Except BuildError BuildOutput → Bool
  | .error .noValidLookupTables => true
  | _ => false

/-- C9.  Both adapters always return an empty lookup-table list, so the
no-valid-lookup-tables failure branch of the compile step is unreachable
from any build call, whatever the environment. -/
theorem c9_no_lookup_tables :
    (∀ (fetchQuote : QuoteRequest → JupiterQuoteResponse) (raw : List Instruction)
        (i o : PubKey) (a : ℚ) (s : Nat) (up : PubKey),
      returnsEmptyLookupTables
        (getSwapInstructionsFromJupiter fetchQuote raw i o a s up) = true) ∧
    (∀ (fetchQuote : QuoteRequest → JupiterQuoteResponse) (raw : List Instruction)
        (i o : PubKey) (a : ℚ) (s : Nat) (up esc : PubKey),
      returnsEmptyLookupTables
        (getSwapInstructionsFromJupiterV2 fetchQuote raw i o a s up esc) = true) ∧
    (∀ (env : BuildEnv) (t : PubKey) (d : ℚ) (s : Nat) (u : List Instruction)
        (w : PubKey),
      failsWithNoValidLookupTables
        (buildSimulatedFlashLoanInstructions env t d s u w) = false) ∧
    (∀ (env : BuildEnv) (t : PubKey) (d : ℚ) (s : Nat) (u : List Instruction)
        (w : PubKey),
      failsWithNoValidLookupTables
        (buildSimulatedFlashLoanInstructionsV2 env t d s u w) = false) := by
  refine ⟨?_, ?_, ?_, ?_⟩
  · intro fetchQuote raw i o a s up
    rcases getJupiterQuote_cases fetchQuote ⟨i, o, a, s⟩ with hq | hq
    · have hok : getSwapInstructionsFromJupiter fetchQuote raw i o a s up =
          .ok ⟨jupiterFilteredInstructions raw, [], fetchQuote ⟨i, o, a, s⟩⟩ := by
        unfold getSwapInstructionsFromJupiter
        rw [hq]
        rfl
      rw [hok]
      rfl
    · have herr : getSwapInstructionsFromJupiter fetchQuote raw i o a s up =
          .error .multiHopRouteRejected := by
        unfold getSwapInstructionsFromJupiter
        rw [hq]
      rw [herr]
      rfl
  · intro fetchQuote raw i o a s up esc
    rcases getJupiterQuote_cases fetchQuote ⟨i, o, a, s⟩ with hq | hq
    · have hok : getSwapInstructionsFromJupiterV2 fetchQuote raw i o a s up esc =
          .ok ⟨(jupiterFilteredInstructions raw).map (rewriteTransferIx up esc),
               [], fetchQuote ⟨i, o, a, s⟩⟩ := by
        unfold getSwapInstructionsFromJupiterV2
        rw [hq]
        rfl
      rw [hok]
      rfl
    · have herr : getSwapInstructionsFromJupiterV2 fetchQuote raw i o a s up esc =
          .error .multiHopRouteRejected := by
        unfold getSwapInstructionsFromJupiterV2
        rw [hq]
      rw [herr]
      rfl
  · intro env t d s u w
    by_cases h1 : (v1RefQuote env t s).routePlan.length > 1
    · simp only [v1RefQuote] at h1
      simp only [buildSimulatedFlashLoanInstructions, estimateWSOLForTokenSwap,
        getJupiterQuote, if_pos h1]
      rfl
    · by_cases h2 : (v1SwapQuote env t s d).routePlan.length > 1
      · simp only [v1RefQuote] at h1
        simp only [v1SwapQuote, v1WsolInLamports, v1RefQuote] at h2
        simp only [buildSimulatedFlashLoanInstructions, estimateWSOLForTokenSwap,
          getSwapInstructionsFromJupiter, getJupiterQuote, if_neg h1, if_pos h2]
        rfl
      · rw [buildSimulatedFlashLoanInstructions_eq env t d s u w
          (Nat.not_lt.mp h1) (Nat.not_lt.mp h2)]
        cases env.compileError <;> rfl
  · intro env t d s u w
    by_cases h1 : (v2Quote env t s d).routePlan.length > 1
    · simp only [v2Quote, v2SwapAmount] at h1
      simp only [buildSimulatedFlashLoanInstructionsV2, getJupiterQuote,
        if_pos h1]
      rfl
    · rw [buildSimulatedFlashLoanInstructionsV2_eq env t d s u w
        (Nat.not_lt.mp h1)]
      cases env.compileError with
      | none => rfl
      | some msg =>
        cases hb : stringIncludes msg "too large" <;> simp [hb,
          failsWithNoValidLookupTables]

/-! ### C10 -/

/-- Whether an adapter result is free of token close-account instructions
(payload byte 9), whatever account they target. -/
def closeFreeSwapResult : Except BuildError SwapResult → Bool
  | .ok res => res.instructions.all fun ix =>
      !(ix.programId == TOKEN_PROGRAM_ID && ix.data.head? == some 9)
  | .error _ => true

lemma jupiterFiltered_all_not_closeByte (raw : List Instruction) :
    (jupiterFilteredInstructions raw).all (fun ix =>
      !(ix.programId == TOKEN_PROGRAM_ID && ix.data.head? == some 9)) = true := by
  rw [List.all_eq_true]
  intro ix hix
  simp [jupiterFiltered_not_close raw ix hix]

lemma jupiterFilteredMapped_all_not_closeByte (raw : List Instruction)
    (up esc : PubKey) :
    (((jupiterFilteredInstructions raw).map (rewriteTransferIx up esc)).all
      (fun ix =>
        !(ix.programId == TOKEN_PROGRAM_ID && ix.data.head? == some 9))) =
      true := by
  rw [List.all_eq_true]
  intro ix2 hix2
  rcases List.mem_map.mp hix2 with ⟨ix, hix, rfl⟩
  have h := jupiterFiltered_not_close raw ix hix
  simp only [rewriteTransferIx_programId, rewriteTransferIx_data]
  simp [h]

/-- C10.  The close-account filter of both adapters removes every token
instruction whose first payload byte is 9 regardless of which account it
targets: every adapter output is close-free, and a close instruction
aimed at an unrelated account (999, not the escrow) is dropped as well. -/
theorem c10_close_filter_indiscriminate :
    (∀ (fetchQuote : QuoteRequest → JupiterQuoteResponse) (raw : List Instruction)
        (i o : PubKey) (a : ℚ) (s : Nat) (up : PubKey),
      closeFreeSwapResult
        (getSwapInstructionsFromJupiter fetchQuote raw i o a s up) = true) ∧
    (∀ (fetchQuote : QuoteRequest → JupiterQuoteResponse) (raw : List Instruction)
        (i o : PubKey) (a : ℚ) (s : Nat) (up esc : PubKey),
      closeFreeSwapResult
        (getSwapInstructionsFromJupiterV2 fetchQuote raw i o a s up esc) = true) ∧
    getSwapInstructionsFromJupiter demoFetch
      [createCloseAccountInstruction 999 demoWallet demoWallet] WSOL_MINT_KEY
      demoTarget 1 100 demoWallet = .ok ⟨[], [], demoQuote⟩ := by
  refine ⟨?_, ?_, by decide⟩
  · intro fetchQuote raw i o a s up
    rcases getJupiterQuote_cases fetchQuote ⟨i, o, a, s⟩ with hq | hq
    · have hok : getSwapInstructionsFromJupiter fetchQuote raw i o a s up =
          .ok ⟨jupiterFilteredInstructions raw, [], fetchQuote ⟨i, o, a, s⟩⟩ := by
        unfold getSwapInstructionsFromJupiter
        rw [hq]
        rfl
      rw [hok]
      show (jupiterFilteredInstructions raw).all _ = true
      exact jupiterFiltered_all_not_closeByte raw
    · have herr : getSwapInstructionsFromJupiter fetchQuote raw i o a s up =
          .error .multiHopRouteRejected := by
        unfold getSwapInstructionsFromJupiter
        rw [hq]
      rw [herr]
      rfl
  · intro fetchQuote raw i o a s up esc
    rcases getJupiterQuote_cases fetchQuote ⟨i, o, a, s⟩ with hq | hq
    · have hok : getSwapInstructionsFromJupiterV2 fetchQuote raw i o a s up esc =
          .ok ⟨(jupiterFilteredInstructions raw).map (rewriteTransferIx up esc),
               [], fetchQuote ⟨i, o, a, s⟩⟩ := by
        unfold getSwapInstructionsFromJupiterV2
        rw [hq]
        rfl
      rw [hok]
      show ((jupiterFilteredInstructions raw).map (rewriteTransferIx up esc)).all
        _ = true
      exact jupiterFilteredMapped_all_not_closeByte raw up esc
    · have herr : getSwapInstructionsFromJupiterV2 fetchQuote raw i o a s up esc =
          .error .multiHopRouteRejected := by
        unfold getSwapInstructionsFromJupiterV2
        rw [hq]
      rw [herr]
      rfl
